import Mathlib

/-!
Verification development for the RFP extraction / classification / estimation
core of the `ooocccrrr` repository.

JavaScript strings are modelled as `List Char` (`JStr`); JavaScript numbers
are modelled as exact rationals (`ℚ`), except where `Math.sqrt` forces real
numbers, in which case `ℝ` with `Real.sqrt` is used.  Regular expressions are
modelled by a small backtracking regex interpreter (`RE`, `reEnds`) whose
result lists are ordered in JavaScript backtracking priority (greedy
quantifiers, left-alternative first), so that first-match and `matchAll`
semantics agree with the source.
-/

/-- Model of a JavaScript string: a list of characters. -/
abbrev JStr := List Char

/-- Characters removed by JavaScript `String.prototype.trim` (ASCII part). -/
def isWsJS (c : Char) : Bool :=
  c = ' ' || c = '\t' || c = '\n' || c = '\r' || c = '\x0b' || c = '\x0c'

/-- Model of JavaScript `String.prototype.trim`. -/
def jsTrim (s : JStr) : JStr :=
  ((s.dropWhile isWsJS).reverse.dropWhile isWsJS).reverse

/-- Model of JavaScript `String.prototype.toLowerCase` (ASCII part). -/
def jsLower (s : JStr) : JStr := s.map Char.toLower

/-- Word characters for the regex `\b` assertion (JavaScript `\w`). -/
def isWordChar (c : Char) : Bool :=
  (c ≥ 'a' && c ≤ 'z') || (c ≥ 'A' && c ≤ 'Z') || (c ≥ '0' && c ≤ '9') || c = '_'

/-- Characters matched by regex `\s` (ASCII part of the JavaScript class). -/
def isSpaceRE (c : Char) : Bool :=
  c = ' ' || c = '\t' || c = '\n' || c = '\r' || c = '\x0b' || c = '\x0c'

/-- Characters matched by regex `\d`. -/
def isDigitRE (c : Char) : Bool := c ≥ '0' && c ≤ '9'

/-- Regular-expression abstract syntax for the patterns appearing in the
source.  `cls` matches one character satisfying a predicate, `wb` is the
word-boundary assertion `\b`, `grp` is a numbered capture group, and `star`
is a greedy Kleene star (empty-body iterations are discarded, which does not
change the match semantics of the source patterns, all of whose starred
bodies consume at least one character). -/
inductive RE where
  | eps
  | cls (p : Char → Bool)
  | seq (a b : RE)
  | alt (a b : RE)
  | star (a : RE)
  | wb
  | grp (n : Nat) (r : RE)

/-- Capture list: group index together with start and end positions. -/
abbrev Caps := List (Nat × Nat × Nat)

/-- Whether position `i` of `s` is a `\b` word boundary. -/
def atWordBoundary (s : JStr) (i : Nat) : Bool :=
  let before := if 0 < i then
    match s.get? (i - 1) with
    | some c => isWordChar c
    | none => false
  else false
  let after := match s.get? i with
    | some c => isWordChar c
    | none => false
  before ≠ after

/-- Structural size of a regex, used to compute a sufficient fuel bound. -/
def reSize : RE → Nat
  | .eps => 1
  | .cls _ => 1
  | .wb => 1
  | .seq a b => reSize a + reSize b + 1
  | .alt a b => reSize a + reSize b + 1
  | .star r => reSize r + 1
  | .grp _ r => reSize r + 1

/-- All ways to match `re` in `s` starting at position `i`, as a list of
(end position, captures), ordered by JavaScript backtracking priority.
`fuel` bounds the recursion depth; callers pass a bound large enough that
it is never exhausted (star iterations must consume a character, so the
depth is bounded by the pattern size times the text length). -/
def reEnds (s : JStr) : Nat → RE → Nat → List (Nat × Caps)
  | 0, _, _ => []
  | fuel + 1, re, i =>
    match re with
    | .eps => [(i, [])]
    | .cls p =>
      match s.get? i with
      | some c => if p c then [(i + 1, [])] else []
      | none => []
    | .wb => if atWordBoundary s i then [(i, [])] else []
    | .seq a b =>
      (reEnds s fuel a i).flatMap fun x =>
        (reEnds s fuel b x.1).map fun y => (y.1, x.2 ++ y.2)
    | .alt a b => reEnds s fuel a i ++ reEnds s fuel b i
    | .grp n r =>
      (reEnds s fuel r i).map fun x => (x.1, (n, i, x.1) :: x.2)
    | .star r =>
      (((reEnds s fuel r i).filter fun x => i < x.1).flatMap fun x =>
        (reEnds s fuel (.star r) x.1).map fun y => (y.1, x.2 ++ y.2)) ++
      [(i, [])]

/-- Fuel sufficient for any match attempt of `r` against `s`. -/
def reFuel (r : RE) (s : JStr) : Nat :=
  (s.length + 2) * (reSize r + 1) + 1

/-- First (leftmost, highest-priority) match of `r` in `s` at or after
position `start`: start position, end position and captures. -/
def reFindFrom (r : RE) (s : JStr) (start : Nat) : Option (Nat × Nat × Caps) :=
  (List.range (s.length + 1 - start)).findSome? fun d =>
    match reEnds s (reFuel r s) r (start + d) with
    | [] => none
    | x :: _ => some (start + d, x.1, x.2)

/-- Model of JavaScript `regex.test(s)` / non-global `s.match(regex)`
success. -/
def reTest (r : RE) (s : JStr) : Bool := (reFindFrom r s 0).isSome

/-- Substring of `s` from position `i` (inclusive) to `j` (exclusive). -/
def strSub (s : JStr) (i j : Nat) : JStr := (s.drop i).take (j - i)

/-- Model of JavaScript `s.matchAll(regex)` for a global regex: all
successive matches, resuming after the end of each match (advancing one
position past zero-width matches, which do not occur for the source
patterns). -/
def reMatchAllFrom (r : RE) (s : JStr) : Nat → Nat → List (Nat × Nat × Caps)
  | _, 0 => []
  | start, fuel + 1 =>
    match reFindFrom r s start with
    | none => []
    | some (i, j, c) =>
      if i < j then (i, j, c) :: reMatchAllFrom r s j fuel
      else (i, j, c) :: reMatchAllFrom r s (j + 1) fuel

/-- All matches of `r` in `s`, in order. -/
def reMatchAll (r : RE) (s : JStr) : List (Nat × Nat × Caps) :=
  reMatchAllFrom r s 0 (s.length + 1)

/-- Extract the text of capture group `n` from a capture list. -/
def capText (s : JStr) (caps : Caps) (n : Nat) : Option JStr :=
  (caps.find? fun x => x.1 = n).map fun x => strSub s x.2.1 x.2.2

/-! Combinators used to transliterate the source regexes. -/

/-- Case-insensitive literal character. -/
def chi (c : Char) : RE := .cls fun x => x.toLower = c.toLower

/-- Case-sensitive literal character. -/
def chs (c : Char) : RE := .cls fun x => x = c

/-- Sequence a list of regexes. -/
def cat (l : List RE) : RE := l.foldr .seq .eps

/-- Alternation over a list of regexes (left to right priority). -/
def orR : List RE → RE
  | [] => .cls fun _ => false
  | [r] => r
  | r :: rest => .alt r (orR rest)

/-- Case-insensitive literal string. -/
def litCI (w : String) : RE := cat (w.data.map chi)

/-- Case-sensitive literal string. -/
def litCS (w : String) : RE := cat (w.data.map chs)

/-- Greedy `r?`. -/
def opt (r : RE) : RE := .alt r .eps

/-- Greedy `r+`. -/
def plus (r : RE) : RE := .seq r (.star r)

/-- Greedy bounded repetition `r{0,n}`. -/
def repUpTo (r : RE) : Nat → RE
  | 0 => .eps
  | n + 1 => opt (.seq r (repUpTo r n))

/-- Regex `\s`. -/
def reSp : RE := .cls isSpaceRE

/-- Regex `\d`. -/
def reDig : RE := .cls isDigitRE

/-- Regex `.` (any character except line terminators). -/
def reDot : RE := .cls fun c => !(c = '\n' || c = '\r')

/-- Regex `\s*`. -/
def reSps : RE := .star reSp

/-- Regex `\s+`. -/
def reSp1 : RE := plus reSp

/-- Regex `\d+`. -/
def reDigs : RE := plus reDig

/-- A case-insensitive word bounded on both sides by `\b`. -/
def wordCI (w : String) : RE := cat [.wb, litCI w, .wb]

/-! ## String helpers shared by the classifier (`part_008`) -/

/-- Model of JavaScript `String.prototype.includes`. -/
def jsIncludes (s sub : JStr) : Bool :=
  match s with
  | [] => sub.isEmpty
  | c :: rest => sub.isPrefixOf (c :: rest) || jsIncludes rest sub

/-- Remove the characters deleted by the classifier's
`replace(/[.\-_/\\]/g, "")` normalization step. -/
def stripPunct (s : JStr) : JStr :=
  s.filter fun c => !(c = '.' || c = '-' || c = '_' || c = '/' || c = '\\')

/-- Scanner for `collapseWs`: `afterWs` records whether the previous
character was whitespace (so only the first character of each run emits a
space). -/
def collapseWsGo (afterWs : Bool) : JStr → JStr
  | [] => []
  | c :: rest =>
    if isSpaceRE c then
      if afterWs then collapseWsGo true rest
      else ' ' :: collapseWsGo true rest
    else c :: collapseWsGo false rest

/-- Model of `replace(/\s+/g, " ")`: each maximal whitespace run becomes a
single space. -/
def collapseWs (s : JStr) : JStr := collapseWsGo false s

/-- The classifier's `normalizeText`: lowercase, strip `[.\-_/\\]`,
collapse whitespace, trim. -/
def normalizeText (s : JStr) : JStr :=
  jsTrim (collapseWs (stripPunct (jsLower s)))

/-- The classifier's `normalizeKeyword` (same normalization). -/
def normalizeKeyword (s : JStr) : JStr := normalizeText s

/-- Auxiliary scan for `countOccurrences`; after each found occurrence the
next `k.length - 1` characters are skipped via the `skip` counter
(non-overlapping count, as the source's `indexOf` loop does). -/
def countOccGo (k : JStr) (skip : Nat) : JStr → Nat
  | [] => 0
  | c :: rest =>
    match skip with
    | n + 1 => countOccGo k n rest
    | 0 =>
      if k.isPrefixOf (c :: rest) then 1 + countOccGo k (k.length - 1) rest
      else countOccGo k 0 rest

/-- The classifier's `countOccurrences` (non-overlapping `indexOf` loop).
The source would loop forever on an empty keyword; no configured keyword is
empty, and we return 0 in that case. -/
def countOccurrences (text keyword : JStr) : Nat :=
  if keyword = [] then 0 else countOccGo keyword 0 text

/-- First-occurrence deduplication, modelling insertion into a JS `Set`. -/
def dedupFirst (l : List JStr) : List JStr :=
  go [] l
where
  go (seen : List JStr) : List JStr → List JStr
  | [] => []
  | x :: rest => if seen.contains x then go seen rest else x :: go (x :: seen) rest

/-! ## Classifier configuration data (`part_008`) -/

/-- The classifier's `MUST_KEEP_PHRASES` table. -/
def MUST_KEEP_PHRASES : List JStr :=
  (["11 06 60", "11.06.60", "110660", "11 63 10", "11.63.10", "116310",
    "section 11", "division 11", "led display schedule", "display schedule",
    "schedule of displays", "av schedule", "exhibit b", "cost schedule",
    "bid form", "exhibit a", "thornton tomasetti", "tte", "division 26",
    "26 51", "sports lighting", "division 27", "27 41", "sound system"] :
    List String).map String.data

/-- The classifier's `SIGNAL_KEYWORDS` table. -/
def SIGNAL_KEYWORDS : List JStr :=
  (["schedule", "pricing", "bid form", "display", "led", "specification",
    "technical", "qty", "quantity", "pixel pitch", "resolution", "nits",
    "brightness", "cabinet", "module", "diode", "refresh rate",
    "viewing angle", "warranty", "spare parts", "maintenance", "structural",
    "steel", "weight", "lbs", "kg", "power", "voltage", "amps", "circuit",
    "data", "fiber", "cat6", "division 27", "division 26", "section 11",
    "active area", "dimensions"] : List String).map String.data

/-- The classifier's `NOISE_KEYWORDS` table. -/
def NOISE_KEYWORDS : List JStr :=
  (["indemnification", "insurance", "liability", "termination", "arbitration",
    "force majeure", "governing law", "jurisdiction", "severability",
    "waiver", "confidentiality", "intellectual property", "compliance",
    "equal opportunity", "harassment", "drug-free", "background check"] :
    List String).map String.data

/-- The classifier's `KEYWORD_CATEGORIES` table (name, keyword list). -/
def KEYWORD_CATEGORIES : List (JStr × List JStr) :=
  ([("Display Hardware",
     ["led", "l.e.d.", "led display", "video board", "video display",
      "video wall", "scoreboard", "ribbon board", "ribbon display", "fascia",
      "fascia board", "center hung", "centerhung", "auxiliary board",
      "auxiliary display", "marquee", "digital signage", "display panel",
      "display module", "led module", "led cabinet", "led tile"]),
    ("Display Specs",
     ["pixel pitch", "smd", "dip", "brightness", "nits", "candela",
      "viewing distance", "viewing angle", "refresh rate", "resolution",
      "grayscale", "color temperature", "contrast ratio", "ip rating",
      "ip65", "ip54", "weatherproof", "outdoor rated", "indoor rated"]),
    ("Electrical",
     ["electrical", "power distribution", "power supply", "power requirements",
      "voltage", "amperage", "wattage", "circuit breaker", "transformer",
      "ups", "uninterruptible", "generator", "conduit", "junction box",
      "disconnect", "nec", "electrical code", "branch circuit",
      "dedicated circuit", "service entrance", "panel board",
      "load calculation"]),
    ("Structural",
     ["mounting", "rigging", "structural", "structural steel", "steel",
      "i-beam", "w-beam", "catenary", "guy wire", "dead load", "live load",
      "wind load", "seismic", "anchor", "concrete anchor", "embed plate",
      "unistrut", "bracket", "cleat", "hanger", "truss", "canopy", "overhang",
      "elevation", "structural engineer", "pe stamp"]),
    ("Installation",
     ["installation", "install", "labor", "crew", "lift", "crane",
      "boom lift", "scissor lift", "scaffolding", "conduit run", "cable tray",
      "wire pull", "termination", "commissioning", "testing", "alignment",
      "leveling"]),
    ("Control/Data",
     ["control system", "controller", "processor", "video processor",
      "scaler", "fiber", "fiber optic", "data cable", "cat6", "cat5", "hdmi",
      "dvi", "sdi", "signal", "redundancy", "failover", "network", "switch",
      "media player"]),
    ("Permits",
     ["permit", "permits", "sign code", "building code", "zoning", "variance",
      "ada", "egress", "fire code", "fire marshal", "inspection",
      "stamped drawings", "pe", "professional engineer", "shop drawings",
      "submittals"]),
    ("Commercial",
     ["pricing", "bid", "proposal", "quote", "rfp", "rfq", "scope of work",
      "sow", "specification", "spec", "spec section", "division", "csi",
      "alternates", "alternate", "base bid", "add alternate",
      "deduct alternate", "unit price", "allowance", "contingency",
      "warranty", "maintenance", "service agreement"])] :
    List (String × List String)).map fun x => (x.1.data, x.2.map String.data)

/-- Regex `[\d,]+` (used by the dollar-amount booster). -/
def reAmountBody : RE := plus (.cls fun c => isDigitRE c || c = ',')

/-- The classifier's `HIGH_VALUE_BOOSTERS` table, paired with each regex's
source text (the code records `booster.source` in `boosterHits`). -/
def HIGH_VALUE_BOOSTERS : List (JStr × RE) :=
  [("\\$[\\d,]+".data, .seq (chs '$') reAmountBody),
   ("\\d+['′]\\s*[hHxX×]\\s*\\d+".data,
    cat [reDigs, .cls (fun c => c = '\'' || c = '′'), reSps,
         .cls (fun c => c = 'h' || c = 'H' || c = 'x' || c = 'X' || c = '×'),
         reSps, reDigs]),
   ("\\d+\\s*mm\\b".data, cat [reDigs, reSps, litCI "mm", .wb]),
   ("\\d+\\s*nit".data, cat [reDigs, reSps, litCI "nit"]),
   ("\\d+\\s*sq".data, cat [reDigs, reSps, litCI "sq"]),
   ("\\bled\\b.*\\bdisplay\\b".data,
    cat [.wb, litCI "led", .wb, .star reDot, .wb, litCI "display", .wb]),
   ("\\bphase\\s*\\d".data, cat [.wb, litCI "phase", reSps, reDig]),
   ("\\byear\\s*\\d".data, cat [.wb, litCI "year", reSps, reDig])]

/-- The classifier's `CATEGORY_PATTERNS` table (bucket name, regexes). -/
def CATEGORY_PATTERNS : List (JStr × List RE) :=
  [("PRICING".data,
    [cat [.wb, litCI "pric", orR [litCI "e", litCI "ing", litCI "ed"], .wb],
     wordCI "cost", wordCI "total", wordCI "budget", wordCI "bid",
     cat [.wb, litCI "quot", orR [litCI "e", litCI "ation"], .wb],
     wordCI "fee", wordCI "rate", wordCI "compensation", wordCI "allowance",
     wordCI "estimate",
     cat [.wb, litCI "line", reSps, litCI "item"],
     cat [.wb, litCI "unit", reSps, litCI "price"],
     cat [.wb, litCI "lump", reSps, litCI "sum"],
     wordCI "alternate",
     cat [.wb, litCI "add", reSps, litCI "on"],
     cat [.wb, litCI "deduct"]]),
   ("DISPLAY_SPECS".data,
    [cat [.wb, litCI "pixel", reSps, litCI "pitch", .wb],
     wordCI "resolution",
     cat [.wb, litCI "nit", opt (chi 's'), .wb],
     wordCI "brightness", wordCI "led", wordCI "lcd", wordCI "display",
     wordCI "screen",
     cat [.wb, litCI "video", reSps, orR [litCI "wall", litCI "board"], .wb],
     wordCI "scoreboard",
     cat [.wb, litCI "ribbon", reSps, litCI "board", .wb],
     wordCI "fascia", wordCI "marquee",
     cat [.wb, litCI "dimension"],
     cat [.wb, litCI "sq", opt (litCI "uare"), reSps, litCI "f",
          opt (litCI "ee"), litCI "t", .wb],
     cat [.wb, litCI "foot", .wb, .star reDot, .wb, litCI "wide", .wb],
     cat [.wb, litCI "power", reSps, litCI "consumption"],
     wordCI "weight", wordCI "cabinet", wordCI "module",
     cat [.wb, litCI "refresh", reSps, litCI "rate"],
     cat [.wb, litCI "viewing", reSps, orR [litCI "angle", litCI "distance"]]]),
   ("SCOPE".data,
    [cat [.wb, litCI "scope", reSps,
          opt (cat [litCI "of", reSps, litCI "work"]), .wb],
     cat [.wb, litCI "install", opt (litCI "ation"), .wb],
     wordCI "demolition",
     cat [.wb, litCI "remov", orR [litCI "e", litCI "al"], .wb],
     wordCI "phase",
     cat [.wb, litCI "mobiliz", orR [litCI "e", litCI "ation"], .wb],
     cat [.wb, litCI "commission"],
     cat [.wb, litCI "integrat"],
     cat [.wb, litCI "subcontract"],
     cat [.wb, litCI "responsib", orR [litCI "le", litCI "ility"], .wb],
     cat [.wb, litCI "exclusion"],
     cat [.wb, litCI "assumption"],
     cat [.wb, litCI "deliverable"],
     cat [.wb, litCI "work", reSps, litCI "plan"],
     cat [.wb, litCI "general", reSps, litCI "condition"],
     cat [.wb, litCI "site", reSps, litCI "prep"]]),
   ("SCHEDULE".data,
    [wordCI "schedule", wordCI "timeline", wordCI "milestone",
     wordCI "deadline",
     cat [.wb, litCI "completion", reSps, litCI "date"],
     cat [.wb, litCI "notice", reSps, litCI "to", reSps, litCI "proceed"],
     wordCI "ntp",
     cat [.wb, litCI "substantial", reSps, litCI "completion"],
     wordCI "duration",
     cat [.wb, litCI "calendar", reSps, litCI "day"],
     cat [.wb, litCI "work", opt (litCI "ing"), reSps, litCI "day"],
     wordCI "gantt",
     cat [.wb, litCI "critical", reSps, litCI "path"],
     cat [.wb, litCI "liquidated", reSps, litCI "damage"]]),
   ("REQUIREMENTS".data,
    [cat [.wb, litCI "requirement"],
     cat [.wb, litCI "qualification"],
     cat [.wb, litCI "certific", orR [litCI "ate", litCI "ation"]],
     wordCI "compliance", wordCI "standard", wordCI "code", wordCI "permit",
     wordCI "inspection",
     cat [.wb, litCI "submittal"],
     wordCI "form", wordCI "exhibit", wordCI "attachment", wordCI "appendix",
     wordCI "addendum",
     cat [.wb, litCI "specification"],
     wordCI "minority", wordCI "mwbe", wordCI "dbe", wordCI "union",
     cat [.wb, litCI "prevailing", reSps, litCI "wage"],
     cat [.wb, litCI "davis", reDot, litCI "bacon"]]),
   ("WARRANTY".data,
    [wordCI "warranty", wordCI "warranties", wordCI "guarantee",
     wordCI "maintenance",
     cat [.wb, litCI "service", reSps, litCI "level"],
     wordCI "sla",
     cat [.wb, litCI "response", reSps, litCI "time"],
     cat [.wb, litCI "spare", reSps, litCI "part"],
     cat [.wb, litCI "preventative"],
     cat [.wb, litCI "preventive"],
     cat [.wb, litCI "annual", reSps, litCI "check"],
     wordCI "support"]),
   ("SOFTWARE".data,
    [wordCI "cms",
     cat [.wb, litCI "content", reSps, litCI "management"],
     wordCI "livesync", wordCI "software",
     cat [.wb, litCI "control", reSps, litCI "system"],
     wordCI "processor",
     cat [.wb, litCI "media", reSps, litCI "player"],
     wordCI "novastar", wordCI "colorlight", wordCI "brightwall",
     wordCI "scaling",
     cat [.wb, litCI "network"]]),
   ("LEGAL".data,
    [cat [.wb, litCI "indemnif"],
     cat [.wb, litCI "liabilit"],
     wordCI "insurance",
     cat [.wb, litCI "bond", opt (litCI "ing"), .wb],
     wordCI "contract",
     cat [.wb, litCI "term", opt (chi 's'), reSps,
          orR [litCI "and", litCS "&"], reSps, litCI "condition"],
     wordCI "dispute", wordCI "arbitration",
     cat [.wb, litCI "governing", reSps, litCI "law"],
     wordCI "jurisdiction", wordCI "termination",
     cat [.wb, litCI "force", reSps, litCI "majeure"],
     cat [.wb, litCI "confidential"],
     cat [.wb, litCI "non", reDot, litCI "disclosure"],
     wordCI "nda"])]

/-- The classifier's `RISK_PATTERNS` table (bucket name, regexes).
`/\bLD\b/` is the one case-sensitive pattern. -/
def RISK_PATTERNS : List (JStr × List RE) :=
  [("Liquidated Damages".data,
    [cat [litCI "liquidated", reSp1, litCI "damages"],
     cat [.wb, litCS "LD", .wb],
     cat [litCI "daily", reSp1, litCI "penalty"]]),
   ("Performance Bond".data,
    [cat [litCI "performance", reSp1, litCI "bond"],
     cat [litCI "surety", reSp1, litCI "bond"]]),
   ("Payment Terms".data,
    [cat [litCI "net", reSp1, litCI "30"],
     cat [litCI "net", reSp1, litCI "45"],
     cat [litCI "net", reSp1, litCI "60"],
     cat [litCI "payment", reSp1, litCI "terms"],
     cat [litCI "progress", reSp1, litCI "payment"]]),
   ("Retainage".data,
    [litCI "retainage", litCI "retention", litCI "holdback"]),
   ("Change Order".data,
    [cat [litCI "change", reSp1, litCI "order"],
     cat [litCI "variation", reSp1, litCI "order"],
     cat [litCI "scope", reSp1, litCI "change"]]),
   ("Force Majeure".data,
    [cat [litCI "force", reSp1, litCI "majeure"],
     cat [litCI "act", reSp1, litCI "of", reSp1, litCI "god"]]),
   ("Indemnification".data,
    [litCI "indemnif", cat [litCI "hold", reSp1, litCI "harmless"]]),
   ("Insurance".data,
    [litCI "insurance",
     cat [litCI "certificate", reSp1, litCI "of", reSp1, litCI "insurance"],
     cat [litCI "additional", reSp1, litCI "insured"]]),
   ("Termination".data,
    [cat [litCI "termination", reSp1, litCI "for", reSp1, litCI "cause"],
     cat [litCI "termination", reSp1, litCI "for", reSp1, litCI "convenience"]]),
   ("Dispute Resolution".data,
    [litCI "arbitration", litCI "mediation",
     cat [litCI "dispute", reSp1, litCI "resolution"]])]

/-! ## The relevance classifier `scoreRfpChunk` (`part_008`) -/

/-- Relevance label of a chunk. -/
inductive RelevanceLabel where
  | relevant
  | maybe
  | irrelevant
deriving DecidableEq, Repr

/-- The classifier's `detectPatternHits`: how many patterns of a bucket
match the (raw) text. -/
def detectPatternHits (text : JStr) (patterns : List RE) : Nat :=
  (patterns.filter fun p => reTest p text).length

/-- Must-keep phrases whose normalized form occurs in the normalized text. -/
def mustKeepMatched (nt : JStr) : List JStr :=
  MUST_KEEP_PHRASES.filter fun p => 0 < countOccurrences nt (normalizeKeyword p)

/-- Signal keywords occurring in the normalized text. -/
def signalMatched (nt : JStr) : List JStr :=
  SIGNAL_KEYWORDS.filter fun p => 0 < countOccurrences nt (normalizeKeyword p)

/-- Noise keywords occurring in the normalized text. -/
def noiseMatched (nt : JStr) : List JStr :=
  NOISE_KEYWORDS.filter fun p => 0 < countOccurrences nt (normalizeKeyword p)

/-- Total number of must-keep phrase occurrences. -/
def mustKeepTotal (nt : JStr) : Nat :=
  (MUST_KEEP_PHRASES.map fun p => countOccurrences nt (normalizeKeyword p)).sum

/-- Total number of signal keyword occurrences. -/
def signalTotal (nt : JStr) : Nat :=
  (SIGNAL_KEYWORDS.map fun p => countOccurrences nt (normalizeKeyword p)).sum

/-- Total number of noise keyword occurrences. -/
def noiseTotal (nt : JStr) : Nat :=
  (NOISE_KEYWORDS.map fun p => countOccurrences nt (normalizeKeyword p)).sum

/-- The accumulated `densityHits` value: +6 per must-keep occurrence,
+2 per signal occurrence, −1.8 per noise occurrence. -/
def densityHitsQ (nt : JStr) : ℚ :=
  6 * mustKeepTotal nt + 2 * signalTotal nt - (9 / 5) * noiseTotal nt

/-- Occurrence count of a category's keywords in the normalized text. -/
def categoryKeywordCount (nt : JStr) (kws : List JStr) : Nat :=
  (kws.map fun k => countOccurrences nt (normalizeKeyword k)).sum

/-- Capped keyword bonus of one category (`Math.min(4, hitCount * 0.9)`
when it hit, else nothing). -/
def catKeywordBonus (nt : JStr) (c : JStr × List JStr) : ℚ :=
  let cnt := categoryKeywordCount nt c.2
  if 0 < cnt then min 4 ((9 / 10) * cnt) else 0

/-- Capped pattern bonus of one category bucket
(`Math.min(2.5, patternHits * 0.45)` when it hit, else nothing). -/
def catPatternBonus (text : JStr) (b : JStr × List RE) : ℚ :=
  let hits := detectPatternHits text b.2
  if 0 < hits then min (5 / 2) ((9 / 20) * hits) else 0

/-- Capped bonus of one risk bucket (`Math.min(3, hits * 0.8)` when it
hit, else nothing). -/
def riskBonus (text : JStr) (b : JStr × List RE) : ℚ :=
  let hits := detectPatternHits text b.2
  if 0 < hits then min 3 ((4 / 5) * hits) else 0

/-- The accumulated `categoryScore`: capped keyword bonus per keyword
category plus capped pattern bonus per pattern bucket. -/
def categoryScoreQ (text : JStr) : ℚ :=
  (KEYWORD_CATEGORIES.map (catKeywordBonus (normalizeText text))).sum +
  (CATEGORY_PATTERNS.map (catPatternBonus text)).sum

/-- The accumulated `riskScore`: capped bonus per matching risk bucket. -/
def riskScoreQ (text : JStr) : ℚ :=
  (RISK_PATTERNS.map (riskBonus text)).sum

/-- Source strings of boosters matching the raw text (`boosterHits`). -/
def boosterHitsL (text : JStr) : List JStr :=
  (HIGH_VALUE_BOOSTERS.filter fun b => reTest b.2 text).map fun b => b.1

/-- The accumulated `boosterScore`: 0.7 per matching booster pattern. -/
def boosterScoreQ (text : JStr) : ℚ :=
  (7 / 10) * (boosterHitsL text).length

/-- Regex `/\bav-\d+/i` used by the drawing-candidate heuristic. -/
def reAvSheet : RE := cat [.wb, litCI "av", chs '-', reDigs]

/-- The classifier's `isDrawingCandidate` heuristic. -/
def isDrawingCandidate (text : JStr) : Bool :=
  let lowerText := jsLower text
  decide ((jsTrim text).length < 350) &&
    (jsIncludes lowerText "scale".data ||
     jsIncludes lowerText "detail".data ||
     jsIncludes lowerText "elevation".data ||
     jsIncludes lowerText "section".data ||
     jsIncludes lowerText "plan".data ||
     jsIncludes lowerText "drawing".data ||
     jsIncludes lowerText "dwg".data ||
     reTest reAvSheet text ||
     (jsIncludes lowerText "sheet".data &&
      (jsIncludes lowerText "of".data || reTest reDigs text)))

/-- The drawing bonus added to the score. -/
def drawingScoreQ (text : JStr) : ℚ :=
  if isDrawingCandidate text then 7 / 5 else 0

/-- Category names hit by keywords or pattern buckets (a JS `Set`,
first-insertion order). -/
def categoryHitsL (text : JStr) : List JStr :=
  dedupFirst
    (((KEYWORD_CATEGORIES.filter fun c =>
        0 < categoryKeywordCount (normalizeText text) c.2).map fun c => c.1) ++
     ((CATEGORY_PATTERNS.filter fun b =>
        0 < detectPatternHits text b.2).map fun b => b.1))

/-- Risk bucket names hit by the raw text. -/
def riskHitsL (text : JStr) : List JStr :=
  dedupFirst ((RISK_PATTERNS.filter fun b =>
    0 < detectPatternHits text b.2).map fun b => b.1)

/-- Keywords matched within the keyword categories. -/
def categoryMatchedKeywords (nt : JStr) : List JStr :=
  KEYWORD_CATEGORIES.flatMap fun c =>
    c.2.filter fun k => 0 < countOccurrences nt (normalizeKeyword k)

/-- The full `matchedKeywords` set in insertion order: must-keep, signal,
noise, then category keywords. -/
def matchedKeywordsAll (text : JStr) : List JStr :=
  let nt := normalizeText text
  dedupFirst (mustKeepMatched nt ++ signalMatched nt ++ noiseMatched nt ++
    categoryMatchedKeywords nt)

/-- Whether any matched keyword is a must-keep phrase (the hard override). -/
def hasMustKeep (text : JStr) : Bool :=
  (matchedKeywordsAll text).any fun k => MUST_KEEP_PHRASES.contains k

/-- Regex `/\bmandatory\b|\bmust\b/i`. -/
def reMandatory : RE := .alt (wordCI "mandatory") (wordCI "must")

/-- Regex `/\bdeadline\b|\bdue date\b|\bsubmission\b/i`. -/
def reDeadline : RE :=
  orR [wordCI "deadline", wordCI "due date", wordCI "submission"]

/-- The `reasons` list accumulated by the classifier, in push order:
must-keep reasons, noise reasons, mandatory language, deadline language. -/
def reasonsL (text : JStr) : List JStr :=
  let nt := normalizeText text
  ((mustKeepMatched nt).map fun p =>
    "must-keep: \"".data ++ p ++ "\"".data) ++
  ((noiseMatched nt).map fun p =>
    "noise: \"".data ++ p ++ "\"".data) ++
  (if reTest reMandatory (jsLower text) then ["mandatory language".data] else []) ++
  (if reTest reDeadline (jsLower text) then
    ["submission/deadline language".data] else [])

/-- Join strings with a separator (JS `Array.prototype.join`). -/
def joinSep (sep : JStr) (l : List JStr) : JStr := List.intercalate sep l

/-- The classifier's `reason` string: first three reasons joined, or the
fallback text. -/
def reasonStr (text : JStr) : JStr :=
  let r := joinSep ", ".data ((reasonsL text).take 3)
  if r = [] then "keyword-density analysis".data else r

/-- The keyword-density component: positive totals are normalized by the
square root of the normalized-text length, negative totals are not. -/
noncomputable def keywordDensityScore (text : JStr) : ℝ :=
  let nt := normalizeText text
  let d := densityHitsQ nt
  if 0 < d then (d : ℝ) / Real.sqrt (max nt.length 1 : ℕ) else (d : ℝ)

/-- Model of `Number(x.toFixed(2))`: round to two decimals, half away from
zero. -/
noncomputable def toFixed2R (x : ℝ) : ℝ :=
  if x < 0 then -((⌊(-x) * 100 + 1 / 2⌋ : ℤ) : ℝ) / 100
  else ((⌊x * 100 + 1 / 2⌋ : ℤ) : ℝ) / 100

/-- The classifier's final numeric score. -/
noncomputable def scoreVal (text : JStr) : ℝ :=
  toFixed2R (keywordDensityScore text + (categoryScoreQ text : ℝ) +
    (riskScoreQ text : ℝ) + (boosterScoreQ text : ℝ) + (drawingScoreQ text : ℝ))

open Classical in
/-- The classifier's label decision: must-keep override, then the 7 and 2.5
thresholds. -/
noncomputable def chunkLabel (text : JStr) : RelevanceLabel :=
  if hasMustKeep text then .relevant
  else if 7 ≤ scoreVal text then .relevant
  else if 5 / 2 ≤ scoreVal text then .maybe
  else .irrelevant

/-- Result record of `scoreRfpChunk`. -/
structure ChunkScore where
  label : RelevanceLabel
  score : ℝ
  reason : JStr
  categoryHits : List JStr
  riskHits : List JStr
  matchedKeywords : List JStr
  boosterHits : List JStr
  drawingCandidate : Bool

/-- The classifier's `scoreRfpChunk` (from `part_008`). -/
noncomputable def scoreRfpChunk (text : JStr) : ChunkScore where
  label := chunkLabel text
  score := scoreVal text
  reason := reasonStr text
  categoryHits := (categoryHitsL text).take 6
  riskHits := (riskHitsL text).take 6
  matchedKeywords := (matchedKeywordsAll text).take 10
  boosterHits := boosterHitsL text
  drawingCandidate := isDrawingCandidate text

/-! ## The chunker `splitIntoChunks` (`part_008` / `rfpFilter.ts`) -/

/-- The sentinel separator `"\n\n---\n\n"`. -/
def SENT : JStr := "\n\n---\n\n".data

/-- Auxiliary scan of JavaScript `String.prototype.split` with the sentinel
string separator: splits at each leftmost non-overlapping occurrence.  The
`skip` counter consumes the tail of a found separator. -/
def splitSentGo (skip : Nat) (acc : JStr) : JStr → List JStr
  | [] => [acc.reverse]
  | c :: rest =>
    match skip with
    | n + 1 => splitSentGo n acc rest
    | 0 =>
      if SENT.isPrefixOf (c :: rest) then
        acc.reverse :: splitSentGo (SENT.length - 1) [] rest
      else splitSentGo 0 (c :: acc) rest

/-- Model of `s.split("\n\n---\n\n")`. -/
def splitSent (s : JStr) : List JStr := splitSentGo 0 [] s

/-- Auxiliary scan for splitting on runs of at least `minR` newlines
(JavaScript `split(/\n+/)` for `minR = 1` and `split(/\n{2,}/)` for
`minR = 2`): the greedy regex consumes each maximal newline run, via the
`skip` counter. -/
def splitNlGo (minR skip : Nat) (acc : JStr) : JStr → List JStr
  | [] => [acc.reverse]
  | c :: rest =>
    match skip with
    | n + 1 => splitNlGo minR n acc rest
    | 0 =>
      if c = '\n' && minR ≤ 1 + (rest.takeWhile fun x => x = '\n').length then
        acc.reverse ::
          splitNlGo minR (rest.takeWhile fun x => x = '\n').length [] rest
      else splitNlGo minR 0 (c :: acc) rest

/-- Model of `s.split(/\n+/)` (`minR = 1`) and `s.split(/\n{2,}/)`
(`minR = 2`). -/
def splitNlRuns (minR : Nat) (s : JStr) : List JStr := splitNlGo minR 0 [] s

/-- The chunker `splitIntoChunks`: trim; empty input yields no chunks; text
containing the sentinel is split on it exactly (keeping non-empty trimmed
parts); otherwise split on runs of two-or-more newlines keeping trimmed
fragments longer than 80 characters. -/
def splitIntoChunks (s : JStr) : List JStr :=
  let normalized := jsTrim s
  if normalized = [] then []
  else if jsIncludes normalized SENT then
    ((splitSent normalized).map jsTrim).filter fun p => !p.isEmpty
  else
    ((splitNlRuns 2 normalized).map jsTrim).filter fun p => 80 < p.length

/-! ## The structured workbook builder (`rfpWorkbook.ts`) -/

/-- `cleanText`: collapse whitespace runs to single spaces, then trim. -/
def cleanText (s : JStr) : JStr := jsTrim (collapseWs s)

/-- `splitLines`: split on newline runs, clean, keep lines of at least 8
characters. -/
def splitLines (text : JStr) : List JStr :=
  ((splitNlRuns 1 text).map cleanText).filter fun l => 8 ≤ l.length

/-- `selectCategory`: first category hit, or "General". -/
def selectCategory (hits : List JStr) : JStr :=
  match hits with
  | [] => "General".data
  | h :: _ => h

/-- Regex `[a-z]` under the `/i` flag. -/
def reAlphaCI : RE := .cls fun c => (c ≥ 'a' && c ≤ 'z') || (c ≥ 'A' && c ≤ 'Z')

/-- The workbook's `REQUIREMENT_PATTERN`. -/
def REQUIREMENT_PATTERN : RE :=
  cat [.wb, orR [litCI "must", litCI "required", litCI "shall",
    litCI "submittal", litCI "compliance", litCI "deliverable",
    litCI "specification"], .wb]

/-- The workbook's `ASSUMPTION_PATTERN`. -/
def ASSUMPTION_PATTERN : RE :=
  cat [.wb, orR [litCI "assumption", litCI "excluded", litCI "not included",
    litCI "by others", litCI "owner provided", litCI "by owner"], .wb]

/-- The workbook's `SCHEDULE_PATTERN`. -/
def SCHEDULE_PATTERN : RE :=
  cat [.wb, orR [litCI "deadline", litCI "due", litCI "completion",
    litCI "milestone", litCI "notice to proceed", litCI "ntp",
    litCI "calendar day", litCI "timeline"], .wb]

/-- The workbook's `RISK_PATTERN`. -/
def RISK_PATTERN : RE :=
  cat [.wb, orR [litCI "liability", litCI "indemnif", litCI "bond",
    litCI "insurance", litCI "penalty", litCI "arbitration",
    litCI "retainage", litCI "liquidated damages"], .wb]

/-- The workbook's `DATE_PATTERN`. -/
def DATE_PATTERN : RE :=
  orR
    [cat [.wb,
      orR [litCI "jan", litCI "feb", litCI "mar", litCI "apr", litCI "may",
        litCI "jun", litCI "jul", litCI "aug", litCI "sep", litCI "oct",
        litCI "nov", litCI "dec"],
      .star reAlphaCI, reSp1, reDig, opt reDig, opt (chs ','), reSp1,
      reDig, reDig, opt (.seq reDig (opt reDig)), .wb],
     cat [.wb, reDig, opt reDig, chs '/', reDig, opt reDig, chs '/',
      reDig, reDig, opt (.seq reDig (opt reDig)), .wb],
     cat [.wb, litCI "20", reDig, reDig, .wb]]

/-- The workbook's `AMOUNT_PATTERN` (a global regex; used via `matchAll`). -/
def AMOUNT_PATTERN : RE :=
  cat [chs '$', reAmountBody, opt (cat [chs '.', reDig, reDig])]

/-- Priority trigger `/\b(must|required|shall)\b/i`. -/
def PRIORITY_HIGH_PATTERN : RE :=
  cat [.wb, orR [litCI "must", litCI "required", litCI "shall"], .wb]

/-- Severity trigger `/\b(liquidated damages|termination|indemnif|penalty)\b/i`. -/
def SEVERITY_HIGH_PATTERN : RE :=
  cat [.wb, orR [litCI "liquidated damages", litCI "termination",
    litCI "indemnif", litCI "penalty"], .wb]

/-- All dollar-amount substrings of a line (`line.match(AMOUNT_PATTERN)`
with the global flag). -/
def amountsOf (line : JStr) : List JStr :=
  (reMatchAll AMOUNT_PATTERN line).map fun m => strSub line m.1 m.2.1

/-- Chunk input to the workbook builder. -/
structure WorkbookChunkInput where
  id : JStr
  title : JStr
  text : JStr
  label : RelevanceLabel
  score : ℚ
  categoryHits : List JStr
  riskHits : List JStr
deriving DecidableEq, Repr

/-- Metadata input to the workbook builder (nullable fields). -/
structure WorkbookMetaInput where
  clientName : Option JStr
  venueName : Option JStr
  projectTitle : Option JStr
deriving DecidableEq, Repr

/-- A requirement record. -/
structure WorkbookRequirement where
  id : JStr
  text : JStr
  category : JStr
  priority : JStr
  source : JStr
  citation : JStr
deriving DecidableEq, Repr

/-- A pricing record. -/
structure WorkbookPricing where
  id : JStr
  item : JStr
  amount : JStr
  source : JStr
  citation : JStr
deriving DecidableEq, Repr

/-- A schedule record. -/
structure WorkbookSchedule where
  id : JStr
  milestone : JStr
  dueText : JStr
  source : JStr
  citation : JStr
deriving DecidableEq, Repr

/-- A risk record. -/
structure WorkbookRisk where
  id : JStr
  risk : JStr
  severity : JStr
  source : JStr
  citation : JStr
deriving DecidableEq, Repr

/-- An assumption record. -/
structure WorkbookAssumption where
  id : JStr
  text : JStr
  source : JStr
  citation : JStr
deriving DecidableEq, Repr

/-- A provenance entry of `sources[]`. -/
structure WorkbookSource where
  id : JStr
  title : JStr
  score : ℚ
  label : JStr
deriving DecidableEq, Repr

/-- Project header of a workbook. -/
structure WorkbookProject where
  projectTitle : JStr
  clientName : JStr
  venueName : JStr
  generatedAt : JStr
deriving DecidableEq, Repr

/-- The structured workbook. -/
structure StructuredWorkbook where
  project : WorkbookProject
  requirements : List WorkbookRequirement
  pricing : List WorkbookPricing
  schedule : List WorkbookSchedule
  risks : List WorkbookRisk
  assumptions : List WorkbookAssumption
  sources : List WorkbookSource
deriving DecidableEq, Repr

/-- Render a relevance label the way the TS string union stores it. -/
def labelStr : RelevanceLabel → JStr
  | .relevant => "relevant".data
  | .maybe => "maybe".data
  | .irrelevant => "irrelevant".data

/-- Decimal rendering of a natural number. -/
def natToStr (n : Nat) : JStr := (toString n).data

/-- JavaScript `x || d` for an optional string with default. -/
def jsOrStr (o : Option JStr) (d : String) : JStr :=
  match o with
  | some s => if s = [] then d.data else s
  | none => d.data

/-- Generic first-occurrence deduplication by a normalized key, skipping
empty keys (the workbook's `dedupeByText`). -/
def dedupeByKey (key : α → JStr) (l : List α) : List α :=
  go [] l
where
  go (seen : List JStr) : List α → List α
  | [] => []
  | x :: rest =>
    let k := jsLower (cleanText (key x))
    if k = [] || seen.contains k then go seen rest
    else x :: go (k :: seen) rest

/-- Attach sequential ids `pre-1`, `pre-2`, … to record constructors, in
push order (the source's `reqIndex++` counters). -/
def attachIds (pre : String) (l : List (JStr → α)) : List α :=
  (l.enumFrom 1).map fun x => x.2 (pre.data ++ "-".data ++ natToStr x.1)

/-- Requirement records pushed for one chunk (before ids). -/
def reqCandsOfChunk (ch : WorkbookChunkInput) : List (JStr → WorkbookRequirement) :=
  (splitLines ch.text).filterMap fun line =>
    if reTest REQUIREMENT_PATTERN line then
      some fun i =>
        { id := i, text := line, category := selectCategory ch.categoryHits,
          priority := if reTest PRIORITY_HIGH_PATTERN line then "High".data
            else "Medium".data,
          source := ch.title, citation := ch.id }
    else none

/-- Pricing records pushed for one chunk (before ids): one per dollar
amount found in a line. -/
def priceCandsOfChunk (ch : WorkbookChunkInput) : List (JStr → WorkbookPricing) :=
  (splitLines ch.text).flatMap fun line =>
    (amountsOf line).map fun amount i =>
      { id := i, item := line.take 120, amount := amount,
        source := ch.title, citation := ch.id }

/-- Schedule records pushed for one chunk (before ids). -/
def schedCandsOfChunk (ch : WorkbookChunkInput) : List (JStr → WorkbookSchedule) :=
  (splitLines ch.text).filterMap fun line =>
    if reTest SCHEDULE_PATTERN line || reTest DATE_PATTERN line then
      some fun i =>
        { id := i, milestone := line.take 120,
          dueText := match reFindFrom DATE_PATTERN line 0 with
            | some m => strSub line m.1 m.2.1
            | none => "TBD".data,
          source := ch.title, citation := ch.id }
    else none

/-- Risk records pushed for one chunk (before ids). -/
def riskCandsOfChunk (ch : WorkbookChunkInput) : List (JStr → WorkbookRisk) :=
  (splitLines ch.text).filterMap fun line =>
    if 0 < ch.riskHits.length || reTest RISK_PATTERN line then
      some fun i =>
        { id := i, risk := line.take 140,
          severity := if reTest SEVERITY_HIGH_PATTERN line then "High".data
            else "Medium".data,
          source := ch.title, citation := ch.id }
    else none

/-- Assumption records pushed for one chunk (before ids). -/
def assumpCandsOfChunk (ch : WorkbookChunkInput) : List (JStr → WorkbookAssumption) :=
  (splitLines ch.text).filterMap fun line =>
    if reTest ASSUMPTION_PATTERN line then
      some fun i =>
        { id := i, text := line.take 140, source := ch.title, citation := ch.id }
    else none

/-- The chunks kept by the builder (everything not labelled irrelevant). -/
def selectedChunks (chunks : List WorkbookChunkInput) : List WorkbookChunkInput :=
  chunks.filter fun ch => !(ch.label = RelevanceLabel.irrelevant)

/-- The workbook builder `buildStructuredWorkbook`.  The generation
timestamp is passed in as `now` (the source calls `new Date()`). -/
def buildStructuredWorkbook (chunks : List WorkbookChunkInput)
    (meta : WorkbookMetaInput) (now : JStr) : StructuredWorkbook :=
  let selected := selectedChunks chunks
  { project :=
      { projectTitle := jsOrStr meta.projectTitle "RFP Project",
        clientName := jsOrStr meta.clientName "Unknown Client",
        venueName := jsOrStr meta.venueName "Unknown Venue",
        generatedAt := now },
    requirements :=
      (dedupeByKey (fun r => r.text)
        (attachIds "REQ" (selected.flatMap reqCandsOfChunk))).take 200,
    pricing :=
      (dedupeByKey (fun r => r.item)
        (attachIds "PRC" (selected.flatMap priceCandsOfChunk))).take 200,
    schedule :=
      (dedupeByKey (fun r => r.milestone)
        (attachIds "SCH" (selected.flatMap schedCandsOfChunk))).take 200,
    risks :=
      (dedupeByKey (fun r => r.risk)
        (attachIds "RSK" (selected.flatMap riskCandsOfChunk))).take 200,
    assumptions :=
      (dedupeByKey (fun r => r.text)
        (attachIds "ASM" (selected.flatMap assumpCandsOfChunk))).take 200,
    sources := selected.map fun ch =>
      { id := ch.id, title := ch.title, score := ch.score,
        label := labelStr ch.label } }

/-! ## Workbook diffing (`page.tsx`) -/

/-- One diff bucket: labels of added, edited and removed records. -/
structure DiffBucket where
  added : List JStr
  edited : List JStr
  removed : List JStr
deriving DecidableEq, Repr

/-- Diff summary over the five collections. -/
structure WorkbookDiffSummary where
  requirements : DiffBucket
  pricing : DiffBucket
  schedule : DiffBucket
  risks : DiffBucket
  assumptions : DiffBucket
deriving DecidableEq, Repr

/-- Insert into a JS `Map` model (association list, first-insertion key
order, later values overwrite in place). -/
def jsMapUpd (m : List (JStr × α)) (k : JStr) (v : α) : List (JStr × α) :=
  if m.any fun e => e.1 = k then
    m.map fun e => if e.1 = k then (k, v) else e
  else m ++ [(k, v)]

/-- Build a JS `Map` from entries (`new Map(list.map(x => [key x, x]))`). -/
def jsMapOfList (key : α → JStr) (l : List α) : List (JStr × α) :=
  l.foldl (fun m x => jsMapUpd m (key x) x) []

/-- `Map.get`. -/
def jsMapGet (m : List (JStr × α)) (k : JStr) : Option α :=
  (m.find? fun e => e.1 = k).map fun e => e.2

/-- The page's `buildDiffBucket`: key both sides by id; walk the next map
emitting added/edited labels, then the previous map emitting removed
labels. -/
def buildDiffBucket (previous next : List α) (getId : α → JStr)
    (getLabel : α → JStr) (isSame : α → α → Bool) : DiffBucket :=
  let prevById := jsMapOfList getId previous
  let nextById := jsMapOfList getId next
  { added := nextById.filterMap fun e =>
      if (jsMapGet prevById e.1).isNone then some (getLabel e.2) else none,
    edited := nextById.filterMap fun e =>
      match jsMapGet prevById e.1 with
      | some p => if isSame p e.2 then none else some (getLabel e.2)
      | none => none,
    removed := prevById.filterMap fun e =>
      if (jsMapGet nextById e.1).isNone then some (getLabel e.2) else none }

/-- Content comparison for requirements (text, category, priority, and
citation — the source includes the citation). -/
def reqSame (a b : WorkbookRequirement) : Bool :=
  a.text = b.text && a.category = b.category && a.priority = b.priority &&
    a.citation = b.citation

/-- Content comparison for pricing records. -/
def priceSame (a b : WorkbookPricing) : Bool :=
  a.item = b.item && a.amount = b.amount && a.citation = b.citation

/-- Content comparison for schedule records. -/
def schedSame (a b : WorkbookSchedule) : Bool :=
  a.milestone = b.milestone && a.dueText = b.dueText && a.citation = b.citation

/-- Content comparison for risk records. -/
def riskSame (a b : WorkbookRisk) : Bool :=
  a.risk = b.risk && a.severity = b.severity && a.citation = b.citation

/-- Content comparison for assumption records. -/
def assumpSame (a b : WorkbookAssumption) : Bool :=
  a.text = b.text && a.citation = b.citation

/-- Diff label of a requirement. -/
def reqLabel (r : WorkbookRequirement) : JStr := r.id ++ ": ".data ++ r.text

/-- Diff label of a pricing record. -/
def priceLabel (r : WorkbookPricing) : JStr :=
  r.id ++ ": ".data ++ r.item ++ " (".data ++ r.amount ++ ")".data

/-- Diff label of a schedule record. -/
def schedLabel (r : WorkbookSchedule) : JStr :=
  r.id ++ ": ".data ++ r.milestone ++ " (".data ++ r.dueText ++ ")".data

/-- Diff label of a risk record. -/
def riskLabel (r : WorkbookRisk) : JStr := r.id ++ ": ".data ++ r.risk

/-- Diff label of an assumption record. -/
def assumpLabel (r : WorkbookAssumption) : JStr := r.id ++ ": ".data ++ r.text

/-- The page's `diffStructuredWorkbooks`: `null` without a previous
workbook, else a per-collection keyed diff. -/
def diffStructuredWorkbooks (previous : Option StructuredWorkbook)
    (next : StructuredWorkbook) : Option WorkbookDiffSummary :=
  match previous with
  | none => none
  | some prev =>
    some
      { requirements := buildDiffBucket prev.requirements next.requirements
          (fun r => r.id) reqLabel reqSame,
        pricing := buildDiffBucket prev.pricing next.pricing
          (fun r => r.id) priceLabel priceSame,
        schedule := buildDiffBucket prev.schedule next.schedule
          (fun r => r.id) schedLabel schedSame,
        risks := buildDiffBucket prev.risks next.risks
          (fun r => r.id) riskLabel riskSame,
        assumptions := buildDiffBucket prev.assumptions next.assumptions
          (fun r => r.id) assumpLabel assumpSame }

/-! ## The estimator engine (`estimatorEngine.ts`, rates from `part_005`) -/

/-- The static vendor rate table `ANC_VENDOR_RATES`. -/
structure VendorRates where
  outdoor10mmMarquee : ℚ
  outdoor4mmHighRes : ℚ
  indoor25mmLobby : ℚ
  indoor4mmStandard : ℚ

/-- `ANC_VENDOR_RATES` values. -/
def ANC_VENDOR_RATES : VendorRates :=
  { outdoor10mmMarquee := 105, outdoor4mmHighRes := 158,
    indoor25mmLobby := 200, indoor4mmStandard := 120 }

/-- The static budget rate table `ANC_BUDGET_RATES`. -/
structure BudgetRates where
  installLaborPerSqFt : ℚ
  electricalPerSqFt : ℚ
  structuralWallPerSqFt : ℚ
  structuralCeilingPerSqFt : ℚ
  projectManagementFlat : ℚ
  engineeringStampedDrawingsFlat : ℚ
  marginTarget : ℚ
  dutyMultiplier : ℚ
  sparesMultiplier : ℚ

/-- `ANC_BUDGET_RATES` values. -/
def ANC_BUDGET_RATES : BudgetRates :=
  { installLaborPerSqFt := 290, electricalPerSqFt := 145,
    structuralWallPerSqFt := 30, structuralCeilingPerSqFt := 60,
    projectManagementFlat := 10500, engineeringStampedDrawingsFlat := 20000,
    marginTarget := 15 / 100, dutyMultiplier := 11 / 10,
    sparesMultiplier := 103 / 100 }

/-- The static bundle rate table `ANC_BUNDLE_RATES`. -/
structure BundleRates where
  sendingCardPerDisplay : ℚ
  sparePartsRate : ℚ
  signalCableKitPer25SqFt : ℚ
  upsBatteryBackup : ℚ
  backupVideoProcessor : ℚ
  outdoorWeatherproofPerSqFt : ℚ

/-- `ANC_BUNDLE_RATES` values. -/
def ANC_BUNDLE_RATES : BundleRates :=
  { sendingCardPerDisplay := 450, sparePartsRate := 2 / 100,
    signalCableKitPer25SqFt := 15, upsBatteryBackup := 2500,
    backupVideoProcessor := 12000, outdoorWeatherproofPerSqFt := 12 }

/-- Display profile union. -/
inductive PrefillProfile where
  | outdoor_marquee
  | center_hung
  | lobby_atrium
  | indoor_standard
deriving DecidableEq, Repr

/-- Result of `classifyDisplay`. -/
structure DisplayClassification where
  profile : PrefillProfile
  label : JStr
  product : JStr
  vendorRatePerSqFt : ℚ
  structuralRatePerSqFt : ℚ
  isOutdoor : Bool
  isScoreboardOrCenterHung : Bool
deriving DecidableEq, Repr

/-- The estimator's local `normalizeText` (lowercase, collapse whitespace,
trim — it does not strip punctuation). -/
def estNormalizeText (s : JStr) : JStr := jsTrim (collapseWs (jsLower s))

/-- `classifyDisplay`: fixed priority order of profile triggers. -/
def classifyDisplay (rawText : JStr) : DisplayClassification :=
  let lower := estNormalizeText rawText
  if jsIncludes lower "outdoor marquee".data then
    { profile := .outdoor_marquee, label := "Outdoor Marquee".data,
      product := "Yaham R10 (10mm), 6500 Nits, Rear Service".data,
      vendorRatePerSqFt := ANC_VENDOR_RATES.outdoor10mmMarquee,
      structuralRatePerSqFt := ANC_BUDGET_RATES.structuralWallPerSqFt,
      isOutdoor := true, isScoreboardOrCenterHung := false }
  else if jsIncludes lower "center hung".data ||
      jsIncludes lower "scoreboard".data then
    { profile := .center_hung, label := "Center Hung / Scoreboard".data,
      product :=
        "Yaham R6 or LG 6mm (budgeted at Indoor 4mm dealer-net rate)".data,
      vendorRatePerSqFt := ANC_VENDOR_RATES.indoor4mmStandard,
      structuralRatePerSqFt := ANC_BUDGET_RATES.structuralCeilingPerSqFt,
      isOutdoor := false, isScoreboardOrCenterHung := true }
  else if jsIncludes lower "lobby".data || jsIncludes lower "atrium".data then
    { profile := .lobby_atrium, label := "Lobby / Atrium".data,
      product := "Yaham C2.5 or LG 2.5mm".data,
      vendorRatePerSqFt := ANC_VENDOR_RATES.indoor25mmLobby,
      structuralRatePerSqFt := ANC_BUDGET_RATES.structuralWallPerSqFt,
      isOutdoor := false, isScoreboardOrCenterHung := false }
  else
    { profile := .indoor_standard, label := "Indoor Standard".data,
      product := "Yaham C4 (assumed standard indoor profile)".data,
      vendorRatePerSqFt := ANC_VENDOR_RATES.indoor4mmStandard,
      structuralRatePerSqFt := ANC_BUDGET_RATES.structuralWallPerSqFt,
      isOutdoor := false, isScoreboardOrCenterHung := false }

/-- Numeric value of a digit string. -/
def natOfDigits (s : JStr) : Nat :=
  s.foldl (fun a c => a * 10 + (c.toNat - '0'.toNat)) 0

/-- Rational value of a decimal string `digits(.digits)?`. -/
def qOfDecimal (s : JStr) : ℚ :=
  let intPart := s.takeWhile fun c => !(c = '.')
  let fracPart := (s.dropWhile fun c => !(c = '.')).drop 1
  (natOfDigits intPart : ℚ) + (natOfDigits fracPart : ℚ) / (10 ^ fracPart.length)

/-- The quantity regex `/\b(\d+)\s*(?:displays|screens|units|boards)\b/i`. -/
def reQuantity : RE :=
  cat [.wb, .grp 1 reDigs, reSps,
    orR [litCI "displays", litCI "screens", litCI "units", litCI "boards"], .wb]

/-- `parseQuantity`: captured count if positive, else default 1. -/
def parseQuantity (text : JStr) : Nat :=
  match reFindFrom reQuantity text 0 with
  | some m =>
    match capText text m.2.2 1 with
    | some d => let parsed := natOfDigits d; if 0 < parsed then parsed else 1
    | none => 1
  | none => 1

/-- A decimal number capture `(\d+(?:\.\d+)?)` as group `n`. -/
def grpDecimal (n : Nat) : RE :=
  .grp n (cat [reDigs, opt (cat [chs '.', reDigs])])

/-- The explicit square-footage regex
`/(\d+(?:\.\d+)?)\s*(?:sq\.?\s*ft|sqft|sf)\b/gi`. -/
def reSqftMention : RE :=
  cat [grpDecimal 1, reSps,
    orR [cat [litCI "sq", opt (chs '.'), reSps, litCI "ft"],
      litCI "sqft", litCI "sf"], .wb]

/-- The dimension-pair regex
`/(\d+(?:\.\d+)?)\s*(?:ft|')?\s*[x×]\s*(\d+(?:\.\d+)?)\s*(?:ft|')?/gi`
(the source file's class also shows a mojibake byte for `×`; only `x`/`X`/`×`
can match the inputs considered here). -/
def reDimensionPair : RE :=
  cat [grpDecimal 1, reSps, opt (orR [litCI "ft", chs '\'']), reSps,
    .cls (fun c => c = 'x' || c = 'X' || c = '×'), reSps,
    grpDecimal 2, reSps, opt (orR [litCI "ft", chs '\''])]

/-- `parseSqFtFromText`: maximum of all explicit square-foot mentions and
dimension-pair areas in range (1, 200000); default 150. -/
def parseSqFtFromText (text : JStr) : ℚ :=
  let sqftValues :=
    ((reMatchAll reSqftMention text).filterMap fun m =>
      (capText text m.2.2 1).map qOfDecimal).filter fun v =>
        1 < v && v < 200000
  let dimensionAreas :=
    ((reMatchAll reDimensionPair text).filterMap fun m =>
      match capText text m.2.2 1, capText text m.2.2 2 with
      | some a, some b => some (qOfDecimal a * qOfDecimal b)
      | _, _ => none).filter fun v => 1 < v && v < 200000
  let candidates := sqftValues ++ dimensionAreas
  match candidates with
  | [] => 150
  | c :: rest => rest.foldl max c

/-- The percentage-near-keyword regex of `parseRateFromKeyword`:
`keyword[^\d]{0,20}(\d+(?:\.\d+)?)\s*%`. -/
def reRateNearKeyword (keyword : String) : RE :=
  cat [litCI keyword, repUpTo (.cls fun c => !isDigitRE c) 20,
    grpDecimal 1, reSps, chs '%']

/-- `parseRateFromKeyword`: first matched percentage divided by 100,
defaulting to 0. -/
def parseRateFromKeyword (text : JStr) (keyword : String) : ℚ :=
  match reFindFrom (reRateNearKeyword keyword) text 0 with
  | none => 0
  | some m =>
    match capText text m.2.2 1 with
    | none => 0
    | some d => let rate := qOfDecimal d; if rate < 0 then 0 else rate / 100

/-- The estimator's `money`: `Math.round(value * 100) / 100` (`Math.round`
rounds half toward positive infinity). -/
def money (v : ℚ) : ℚ := (⌊v * 100 + 1 / 2⌋ : ℤ) / 100

/-- Render a rational with a fixed number of decimals (JS `toFixed`,
half away from zero; all values rendered here are non-negative). -/
def toFixedStr (nd : Nat) (q : ℚ) : JStr :=
  let scaled : ℤ := ⌊q * (10 ^ nd : ℚ) + 1 / 2⌋
  let n := scaled.toNat
  let digits := natToStr n
  if nd = 0 then digits
  else
    let padded := List.replicate (nd + 1 - digits.length) '0' ++ digits
    padded.take (padded.length - nd) ++ ".".data ++
      padded.drop (padded.length - nd)

/-- Render a rational the way JS `String(number)` renders the exact decimal
values occurring in the estimator (integers and short decimal fractions). -/
def qToStr (q : ℚ) : JStr :=
  let sign : JStr := if q < 0 then "-".data else []
  let a := |q|
  let k := (List.range 11).find? fun k => ((a * 10 ^ k : ℚ).den = 1)
  match k with
  | none => sign ++ natToStr (⌊a⌋ : ℤ).toNat
  | some 0 => sign ++ natToStr (a.num.toNat)
  | some k => sign ++ toFixedStr k a

/-- Input record of `runAncEstimator`. -/
structure AncEstimateInput where
  rawText : JStr
  projectTitle : Option JStr
  clientName : Option JStr
  venueName : Option JStr

/-- One estimator line item. -/
structure AncEstimateLineItem where
  id : JStr
  group : JStr
  label : JStr
  formula : JStr
  amount : ℚ
deriving DecidableEq, Repr

/-- The display block of an estimate. -/
structure AncEstimateDisplay where
  profile : PrefillProfile
  label : JStr
  product : JStr
  quantity : Nat
  totalSqFt : ℚ
  vendorRatePerSqFt : ℚ
  structuralRatePerSqFt : ℚ
deriving DecidableEq, Repr

/-- The totals block of an estimate. -/
structure AncEstimateTotals where
  totalCost : ℚ
  sellingPrice : ℚ
  taxRate : ℚ
  taxAmount : ℚ
  bondRate : ℚ
  bondAmount : ℚ
  bidFormSubtotal : ℚ
  grossMarginDollars : ℚ
  grossMarginPercent : ℚ
deriving DecidableEq, Repr

/-- The full estimator result. -/
structure AncEstimateResult where
  projectTitle : JStr
  clientName : JStr
  venueName : JStr
  generatedAt : JStr
  assumptions : List JStr
  display : AncEstimateDisplay
  lineItems : List AncEstimateLineItem
  totals : AncEstimateTotals
deriving DecidableEq, Repr

/-- Round to six decimals (JS `Number(x.toFixed(6))` for the non-negative
rates occurring here). -/
def round6 (q : ℚ) : ℚ := (⌊q * 1000000 + 1 / 2⌋ : ℤ) / 1000000

/-- The estimator `runAncEstimator`.  The generation timestamp is passed in
as `now` (the source calls `new Date()`). -/
def runAncEstimator (input : AncEstimateInput) (now : JStr) : AncEstimateResult :=
  let rawText := input.rawText
  let classification := classifyDisplay rawText
  let quantity := parseQuantity rawText
  let sqftPerDisplay := parseSqFtFromText rawText
  let totalSqFt : ℚ := sqftPerDisplay * quantity
  let vendorRate := classification.vendorRatePerSqFt
  let ledHardwareCostPerSqFt :=
    vendorRate * ANC_BUDGET_RATES.dutyMultiplier * ANC_BUDGET_RATES.sparesMultiplier
  let hardware := ledHardwareCostPerSqFt * totalSqFt
  let installLabor := ANC_BUDGET_RATES.installLaborPerSqFt * totalSqFt
  let electrical := ANC_BUDGET_RATES.electricalPerSqFt * totalSqFt
  let structural := classification.structuralRatePerSqFt * totalSqFt
  let sendingCard := ANC_BUNDLE_RATES.sendingCardPerDisplay * quantity
  let spareParts := hardware * ANC_BUNDLE_RATES.sparePartsRate
  let signalCableKit := ANC_BUNDLE_RATES.signalCableKitPer25SqFt * (totalSqFt / 25)
  let upsBackup :=
    if classification.isScoreboardOrCenterHung then
      ANC_BUNDLE_RATES.upsBatteryBackup else 0
  let backupProcessor :=
    if 300 < totalSqFt then ANC_BUNDLE_RATES.backupVideoProcessor else 0
  let weatherproof :=
    if classification.isOutdoor then
      ANC_BUNDLE_RATES.outdoorWeatherproofPerSqFt * totalSqFt else 0
  let projectManagement := ANC_BUDGET_RATES.projectManagementFlat
  let stampedDrawings := ANC_BUDGET_RATES.engineeringStampedDrawingsFlat
  let totalCost := hardware + installLabor + electrical + structural +
    sendingCard + spareParts + signalCableKit + upsBackup + backupProcessor +
    weatherproof + projectManagement + stampedDrawings
  let sellingPrice := totalCost / (1 - ANC_BUDGET_RATES.marginTarget)
  let taxRate := parseRateFromKeyword rawText "tax"
  let bondRate := parseRateFromKeyword rawText "bond"
  let taxAmount := sellingPrice * taxRate
  let bondAmount := sellingPrice * bondRate
  let bidFormSubtotal := sellingPrice + taxAmount + bondAmount
  let grossMarginDollars := sellingPrice - totalCost
  { projectTitle := jsTrim (jsOrStr input.projectTitle "ANC Estimate"),
    clientName := jsTrim (jsOrStr input.clientName "Unknown Client"),
    venueName := jsTrim (jsOrStr input.venueName "Unknown Venue"),
    generatedAt := now,
    assumptions :=
      ["Profile selected: ".data ++ classification.label,
       "Product assumption: ".data ++ classification.product,
       "Quantity: ".data ++ natToStr quantity,
       "Area assumption: ".data ++ qToStr (money totalSqFt) ++
         " sq ft total".data,
       "Hardware formula: (Vendor * 1.10 duty * 1.03 spares) * SqFt".data,
       "Margin target: ".data ++
         toFixedStr 0 (ANC_BUDGET_RATES.marginTarget * 100) ++ "%".data],
    display :=
      { profile := classification.profile, label := classification.label,
        product := classification.product, quantity := quantity,
        totalSqFt := money totalSqFt, vendorRatePerSqFt := vendorRate,
        structuralRatePerSqFt := classification.structuralRatePerSqFt },
    lineItems :=
      [{ id := "HW-LED".data, group := "hardware".data,
         label := "LED Hardware".data,
         formula := "(".data ++ qToStr vendorRate ++ " * 1.10 * 1.03) * ".data
           ++ qToStr (money totalSqFt),
         amount := money hardware },
       { id := "LAB-INSTALL".data, group := "labor".data,
         label := "Install Labor".data,
         formula := qToStr ANC_BUDGET_RATES.installLaborPerSqFt ++ " * ".data
           ++ qToStr (money totalSqFt),
         amount := money installLabor },
       { id := "ELEC".data, group := "labor".data,
         label := "Electrical".data,
         formula := qToStr ANC_BUDGET_RATES.electricalPerSqFt ++ " * ".data
           ++ qToStr (money totalSqFt),
         amount := money electrical },
       { id := "STRUCT".data, group := "labor".data,
         label := "Structural".data,
         formula := qToStr classification.structuralRatePerSqFt ++ " * ".data
           ++ qToStr (money totalSqFt),
         amount := money structural },
       { id := "BUNDLE-SEND".data, group := "bundles".data,
         label := "Sending Card".data,
         formula := qToStr ANC_BUNDLE_RATES.sendingCardPerDisplay ++ " * ".data
           ++ natToStr quantity,
         amount := money sendingCard },
       { id := "BUNDLE-SPARES".data, group := "bundles".data,
         label := "Spare Parts Package (2%)".data,
         formula := qToStr (money hardware) ++ " * 0.02".data,
         amount := money spareParts },
       { id := "BUNDLE-CABLE".data, group := "bundles".data,
         label := "Signal Cable Kit".data,
         formula := qToStr ANC_BUNDLE_RATES.signalCableKitPer25SqFt ++
           " * (".data ++ qToStr (money totalSqFt) ++ " / 25)".data,
         amount := money signalCableKit },
       { id := "BUNDLE-UPS".data, group := "bundles".data,
         label := "UPS Battery Backup".data,
         formula := if classification.isScoreboardOrCenterHung then
             "Scoreboard/Center Hung trigger".data else "Not triggered".data,
         amount := money upsBackup },
       { id := "BUNDLE-PROC".data, group := "bundles".data,
         label := "Backup Video Processor".data,
         formula := if 300 < totalSqFt then
             "Display > 300 sq ft trigger".data else "Not triggered".data,
         amount := money backupProcessor },
       { id := "BUNDLE-WEATHER".data, group := "bundles".data,
         label := "Weatherproof Enclosure Surcharge".data,
         formula := if classification.isOutdoor then
             qToStr ANC_BUNDLE_RATES.outdoorWeatherproofPerSqFt ++ " * ".data
               ++ qToStr (money totalSqFt)
           else "Not triggered".data,
         amount := money weatherproof },
       { id := "FEE-PM".data, group := "flat_fees".data,
         label := "Project Management".data,
         formula := "Flat Fee".data,
         amount := money projectManagement },
       { id := "FEE-ENG".data, group := "flat_fees".data,
         label := "Engineering Stamped Drawings".data,
         formula := "Flat Allowance".data,
         amount := money stampedDrawings },
       { id := "PRICE-TOTAL".data, group := "pricing".data,
         label := "Total Cost".data,
         formula := "Sum of all internal costs".data,
         amount := money totalCost },
       { id := "PRICE-SELL".data, group := "pricing".data,
         label := "Selling Price".data,
         formula := qToStr (money totalCost) ++ " / (1 - 0.15)".data,
         amount := money sellingPrice },
       { id := "PRICE-TAX".data, group := "pricing".data,
         label := "Tax".data,
         formula := qToStr (money sellingPrice) ++ " * ".data ++
           toFixedStr 4 taxRate,
         amount := money taxAmount },
       { id := "PRICE-BOND".data, group := "pricing".data,
         label := "Bond".data,
         formula := qToStr (money sellingPrice) ++ " * ".data ++
           toFixedStr 4 bondRate,
         amount := money bondAmount },
       { id := "PRICE-BID".data, group := "pricing".data,
         label := "Bid Form Subtotal".data,
         formula := "Selling Price + Tax + Bond".data,
         amount := money bidFormSubtotal }],
    totals :=
      { totalCost := money totalCost, sellingPrice := money sellingPrice,
        taxRate := round6 taxRate, taxAmount := money taxAmount,
        bondRate := round6 bondRate, bondAmount := money bondAmount,
        bidFormSubtotal := money bidFormSubtotal,
        grossMarginDollars := money grossMarginDollars,
        grossMarginPercent := money ((grossMarginDollars / sellingPrice) * 100) } }

/-! ## The workbook import parser (`parseStructuredWorkbookFromSheets`) -/

/-- A spreadsheet cell value (the TS `unknown`): a string, a number, or
anything else (including a missing column). -/
inductive JsValue where
  | vStr (s : JStr)
  | vNum (q : ℚ)
  | vOther

/-- A sheet row (`Record<string, unknown>`), modelled as a total map from
column names to cell values (missing columns are `vOther`). -/
abbrev SheetRow := JStr → JsValue

/-- The sheet collection handed to the import parser, keyed by sheet name
(the source reads `sheets.Project`, `sheets.Requirements`, … with `|| []`
defaults). -/
structure SheetsInput where
  Project : List SheetRow
  Requirements : List SheetRow
  Pricing : List SheetRow
  Schedule : List SheetRow
  Risks : List SheetRow
  Assumptions : List SheetRow
  Sources : List SheetRow

/-- The parser's `asString` with an explicit fallback: strings are trimmed,
numbers are stringified, anything else yields the fallback. -/
def asStringD (v : JsValue) (fallback : JStr) : JStr :=
  match v with
  | .vStr s => jsTrim s
  | .vNum q => qToStr q
  | .vOther => fallback

/-- `asString` with the default empty fallback. -/
def asString0 (v : JsValue) : JStr := asStringD v []

/-- JS `Number(string)` for the decimal forms produced by the exporter
(optional sign, digits, optional fraction; empty string is 0; other forms
are not modelled and yield `none` = NaN). -/
def jsNumber (s : JStr) : Option ℚ :=
  let t := jsTrim s
  if t = [] then some 0
  else
    let signed : ℚ × JStr :=
      match t with
      | '-' :: r => (-1, r)
      | '+' :: r => (1, r)
      | _ => (1, t)
    let intPart := signed.2.takeWhile isDigitRE
    let after := signed.2.drop intPart.length
    match after with
    | [] => if intPart = [] then none else some (signed.1 * natOfDigits intPart)
    | '.' :: frac =>
      if frac.all isDigitRE && !(intPart = [] && frac = []) then
        some (signed.1 *
          ((natOfDigits intPart : ℚ) + (natOfDigits frac : ℚ) / 10 ^ frac.length))
      else none
    | _ => none

/-- The citation-recovery regex `/\((chunk-\d+)\)/i`. -/
def reInferCitation : RE :=
  cat [chs '(', .grp 1 (cat [litCI "chunk", chs '-', reDigs]), chs ')']

/-- `inferCitationFromSource`: recover a `(chunk-N)` marker embedded in the
source label, or the empty string. -/
def inferCitationFromSource (source : JStr) : JStr :=
  match reFindFrom reInferCitation source 0 with
  | some m => (capText source m.2.2 1).getD []
  | none => []

/-- `rowsToMap`: fold rows into a JS `Map` keyed and valued by the given
columns, skipping rows with an empty key. -/
def rowsToMap (rows : List SheetRow) (keyField valueField : String) :
    List (JStr × JStr) :=
  rows.foldl
    (fun m row =>
      let k := asString0 (row keyField.data)
      if k = [] then m else jsMapUpd m k (asString0 (row valueField.data)))
    []

/-- The `citation` column with the `(chunk-N)` recovery fallback. -/
def citationOfRow (row : SheetRow) : JStr :=
  let c := asString0 (row "Citation".data)
  if c = [] then inferCitationFromSource (asString0 (row "Source".data)) else c

/-- Requirements parsed from the `Requirements` sheet. -/
def parsedRequirements (rows : List SheetRow) : List WorkbookRequirement :=
  (rows.enum.map fun x =>
    { id := asStringD (x.2 "ID".data) ("REQ-".data ++ natToStr (x.1 + 1)),
      text := asString0 (x.2 "Requirement".data),
      category := asStringD (x.2 "Category".data) "General".data,
      priority :=
        if asStringD (x.2 "Priority".data) "Medium".data = "High".data then
          "High".data else "Medium".data,
      source := asString0 (x.2 "Source".data),
      citation := citationOfRow x.2 } : List WorkbookRequirement).filter
    fun r => !(r.text = [])

/-- Pricing records parsed from the `Pricing` sheet. -/
def parsedPricing (rows : List SheetRow) : List WorkbookPricing :=
  (rows.enum.map fun x =>
    { id := asStringD (x.2 "ID".data) ("PRC-".data ++ natToStr (x.1 + 1)),
      item := asString0 (x.2 "Item".data),
      amount := asString0 (x.2 "Amount".data),
      source := asString0 (x.2 "Source".data),
      citation := citationOfRow x.2 } : List WorkbookPricing).filter
    fun r => !(r.item = [])

/-- Schedule records parsed from the `Schedule` sheet. -/
def parsedSchedule (rows : List SheetRow) : List WorkbookSchedule :=
  (rows.enum.map fun x =>
    { id := asStringD (x.2 "ID".data) ("SCH-".data ++ natToStr (x.1 + 1)),
      milestone := asString0 (x.2 "Milestone".data),
      dueText := asStringD (x.2 "Due".data) "TBD".data,
      source := asString0 (x.2 "Source".data),
      citation := citationOfRow x.2 } : List WorkbookSchedule).filter
    fun r => !(r.milestone = [])

/-- Risk records parsed from the `Risks` sheet. -/
def parsedRisks (rows : List SheetRow) : List WorkbookRisk :=
  (rows.enum.map fun x =>
    { id := asStringD (x.2 "ID".data) ("RSK-".data ++ natToStr (x.1 + 1)),
      risk := asString0 (x.2 "Risk".data),
      severity :=
        if asStringD (x.2 "Severity".data) "Medium".data = "High".data then
          "High".data else "Medium".data,
      source := asString0 (x.2 "Source".data),
      citation := citationOfRow x.2 } : List WorkbookRisk).filter
    fun r => !(r.risk = [])

/-- Assumption records parsed from the `Assumptions` sheet. -/
def parsedAssumptions (rows : List SheetRow) : List WorkbookAssumption :=
  (rows.enum.map fun x =>
    { id := asStringD (x.2 "ID".data) ("ASM-".data ++ natToStr (x.1 + 1)),
      text := asString0 (x.2 "Assumption".data),
      source := asString0 (x.2 "Source".data),
      citation := citationOfRow x.2 } : List WorkbookAssumption).filter
    fun r => !(r.text = [])

/-- Provenance entries parsed from the `Sources` sheet. -/
def parsedSources (rows : List SheetRow) : List WorkbookSource :=
  (rows.map fun row =>
    { id := asString0 (row "Chunk ID".data),
      title := asString0 (row "Title".data),
      score := (jsNumber (asStringD (row "Score".data) "0".data)).getD 0,
      label := asStringD (row "Label".data) "maybe".data } :
    List WorkbookSource).filter
    fun r => !(r.id = [] && r.title = [])

/-- The import parser `parseStructuredWorkbookFromSheets`: `none` exactly
when all five structured collections parse to empty.  The fallback
generation timestamp is passed in as `now` (the source calls
`new Date()`). -/
def parseStructuredWorkbookFromSheets (sheets : SheetsInput) (now : JStr) :
    Option StructuredWorkbook :=
  let projectMap := rowsToMap sheets.Project "Field" "Value"
  let requirements := parsedRequirements sheets.Requirements
  let pricing := parsedPricing sheets.Pricing
  let schedule := parsedSchedule sheets.Schedule
  let risks := parsedRisks sheets.Risks
  let assumptions := parsedAssumptions sheets.Assumptions
  let sources := parsedSources sheets.Sources
  if requirements = [] && pricing = [] && schedule = [] && risks = [] &&
      assumptions = [] then
    none
  else
    some
      { project :=
          { projectTitle :=
              jsOrStr (jsMapGet projectMap "Project Title".data)
                "Imported RFP Project",
            clientName :=
              jsOrStr (jsMapGet projectMap "Client".data) "Unknown Client",
            venueName :=
              jsOrStr (jsMapGet projectMap "Venue".data) "Unknown Venue",
            generatedAt :=
              match jsMapGet projectMap "Generated At".data with
              | some s => if s = [] then now else s
              | none => now },
        requirements := requirements, pricing := pricing,
        schedule := schedule, risks := risks, assumptions := assumptions,
        sources := sources }

/-! ## Concrete inputs used by counterexamples and witnesses -/

/-- The estimator input of the spec's worked example. -/
def c2Input : AncEstimateInput :=
  { rawText := "2 displays, 10ft x 20ft, outdoor marquee".data,
    projectTitle := none, clientName := none, venueName := none }

/-- A relevant chunk whose single line carries three dollar amounts. -/
def c4Chunk : WorkbookChunkInput :=
  { id := "chunk-1".data, title := "Pricing Section".data,
    text := "Fees: $100, then $200, then $300 due".data,
    label := .maybe, score := 3, categoryHits := [], riskHits := [] }

/-- A one-requirement workbook, parameterized by the requirement's
citation. -/
def c3Workbook (cit : String) : StructuredWorkbook :=
  { project :=
      { projectTitle := "P".data, clientName := "C".data,
        venueName := "V".data, generatedAt := "G".data },
    requirements :=
      [{ id := "REQ-1".data,
         text := "Must provide LED display".data, category := "General".data,
         priority := "High".data, source := "S".data, citation := cit.data }],
    pricing := [], schedule := [], risks := [], assumptions := [],
    sources := [] }

/-- Whether a next-record with the given previous lookup counts as edited. -/
def editedFlag (same : α → α → Bool) (prevFound : Option α) (n : α) : Bool :=
  match prevFound with
  | some p => !same p n
  | none => false

/-- All five collections of a workbook have duplicate-free ids. -/
def NodupIds (wb : StructuredWorkbook) : Prop :=
  (wb.requirements.map fun r => r.id).Nodup ∧
  (wb.pricing.map fun r => r.id).Nodup ∧
  (wb.schedule.map fun r => r.id).Nodup ∧
  (wb.risks.map fun r => r.id).Nodup ∧
  (wb.assumptions.map fun r => r.id).Nodup

/-- A chunk whose single line triggers a requirement record. -/
def c6Chunk : WorkbookChunkInput :=
  { id := "chunk-7".data, title := "Scope".data,
    text := "Contractor shall install LED panels".data,
    label := .relevant, score := 8, categoryHits := [], riskHits := [] }

/-- The requirement record extracted from `c6Chunk`. -/
def c6Req : WorkbookRequirement :=
  { id := "REQ-1".data,
    text := "Contractor shall install LED panels".data,
    category := "General".data, priority := "High".data,
    source := "Scope".data, citation := "chunk-7".data }

section ConcreteEval

attribute [local semireducible] Rat.mul Rat.add Rat.inv Rat.sub

set_option maxRecDepth 1000000 in
/-- C2.  Counterexample: on the spec's worked input the returned
`totals.sellingPrice` is the cents-rounded value 332914.96, which is not
exactly `totals.totalCost / 0.85` (= 332914.9647…), so the claim's final
conjunct fails. -/
theorem estimator_c2_selling_price_not_exact :
    (runAncEstimator c2Input "t".data).totals.sellingPrice ≠
      (runAncEstimator c2Input "t".data).totals.totalCost / (85 / 100) := by
  decide

set_option maxRecDepth 1000000 in
/-- C2 (amended).  On input "2 displays, 10ft x 20ft, outdoor marquee" the
estimator returns quantity 2, per-display area 200 sq ft, total 400 sq ft,
the outdoor-marquee profile, a total cost equal to the literal sum of the
twelve documented line-item formulas, and a selling price equal to
`totalCost / (1 − 0.15)` rounded to cents. -/
theorem estimator_c2_values :
    (runAncEstimator c2Input "t".data).display.quantity = 2 ∧
    parseSqFtFromText c2Input.rawText = 200 ∧
    (runAncEstimator c2Input "t".data).display.totalSqFt = 400 ∧
    (runAncEstimator c2Input "t".data).display.profile =
      PrefillProfile.outdoor_marquee ∧
    (runAncEstimator c2Input "t".data).totals.totalCost =
      105 * (11 / 10) * (103 / 100) * 400 + 290 * 400 + 145 * 400 +
      30 * 400 + 450 * 2 + 105 * (11 / 10) * (103 / 100) * 400 * (2 / 100) +
      15 * (400 / 25) + 0 + 12000 + 12 * 400 + 10500 + 20000 ∧
    (runAncEstimator c2Input "t".data).totals.sellingPrice =
      money ((runAncEstimator c2Input "t".data).totals.totalCost /
        (1 - 15 / 100)) := by
  decide

/-- C4.  Counterexample: a single surviving line with three distinct
dollar-amount substrings yields only one pricing record in the returned
workbook, because all three share the same item text (the line) and
`dedupeByText` keeps only the first. -/
theorem workbook_c4_counterexample :
    (amountsOf "Fees: $100, then $200, then $300 due".data).length = 3 ∧
    (buildStructuredWorkbook [c4Chunk] ⟨none, none, none⟩ "t".data).pricing.length
      ≠ 3 := by
  decide

/-- C4 (amended).  Each dollar amount produces a pushed pricing record
(three here), but per-collection deduplication by normalized item text
collapses records from the same line: the returned collection holds a
single record carrying the first amount, with item text the line truncated
to 120 characters. -/
theorem workbook_c4_single_deduped_record :
    (attachIds "PRC" ((selectedChunks [c4Chunk]).flatMap priceCandsOfChunk)).length
      = 3 ∧
    (buildStructuredWorkbook [c4Chunk] ⟨none, none, none⟩ "t".data).pricing =
      [{ id := "PRC-1".data,
         item := "Fees: $100, then $200, then $300 due".data,
         amount := "$100,".data, source := "Pricing Section".data,
         citation := "chunk-1".data }] := by
  decide

/-- C3.  Counterexample: two workbooks whose single requirement is
identical in every semantic field (text, category, priority) and differs
only in its citation; the diff still reports it under
`requirements.edited`, because the source's content comparison includes
the citation. -/
theorem diff_c3_counterexample :
    ((c3Workbook "chunk-1").requirements.map fun r =>
        (r.text, r.category, r.priority)) =
      ((c3Workbook "chunk-2").requirements.map fun r =>
        (r.text, r.category, r.priority)) ∧
    ((diffStructuredWorkbooks (some (c3Workbook "chunk-1"))
        (c3Workbook "chunk-2")).map fun d => d.requirements.edited) =
      some ["REQ-1: Must provide LED display".data] := by
  decide

/-- C8.  Counterexample: an input consisting of a single 80-character
fragment (no sentinel): the fragment has length 80, yet `splitIntoChunks`
drops it, because the filter keeps only fragments strictly longer than 80
characters. -/
theorem chunker_c8_counterexample :
    ((splitNlRuns 2 (jsTrim (List.replicate 80 'a'))).map jsTrim) =
      [List.replicate 80 'a'] ∧
    (List.replicate 80 'a').length = 80 ∧
    splitIntoChunks (List.replicate 80 'a') = [] := by
  decide

end ConcreteEval

/-! ## Characterization of the diff under duplicate-free ids (C3) -/

/-- Folding `jsMapUpd` over fresh, pairwise-distinct keys just appends the
key-value pairs in order. -/
theorem jsMapOfList_aux (key : α → JStr) (l : List α) (m : List (JStr × α))
    (hm : ∀ x ∈ l, (m.any fun e => e.1 = key x) = false)
    (hl : (l.map key).Nodup) :
    l.foldl (fun m x => jsMapUpd m (key x) x) m =
      m ++ l.map fun x => (key x, x) := by
  induction l generalizing m with
  | nil => simp
  | cons x t ih =>
    simp only [List.map_cons, List.nodup_cons] at hl
    have hx : (m.any fun e => e.1 = key x) = false := hm x (by simp)
    have hupd : jsMapUpd m (key x) x = m ++ [(key x, x)] := by
      simp [jsMapUpd, hx]
    simp only [List.foldl_cons, hupd]
    rw [ih]
    · simp
    · intro y hy
      have h1 : (m.any fun e => e.1 = key y) = false := hm y (by simp [hy])
      have h2 : ¬ key x = key y := by
        intro h
        exact hl.1 (h ▸ List.mem_map_of_mem key hy)
      simp [List.any_append, h1, h2]
    · exact hl.2

/-- With duplicate-free keys, the JS `Map` built from a list is just the
association list of key-value pairs. -/
theorem jsMapOfList_eq_map (key : α → JStr) (l : List α)
    (hl : (l.map key).Nodup) :
    jsMapOfList key l = l.map fun x => (key x, x) := by
  simpa using jsMapOfList_aux key l [] (by simp) hl

/-- `jsMapGet` on an association list of pairs is `find?` on the keys. -/
theorem jsMapGet_map_pair (key : α → JStr) (l : List α) (k : JStr) :
    jsMapGet (l.map fun x => (key x, x)) k = l.find? fun x => key x = k := by
  simp only [jsMapGet, List.find?_map]
  induction l with
  | nil => simp
  | cons x t ih =>
    by_cases h : key x = k <;> simp [List.find?_cons, h, Function.comp, ih]

/-- `filterMap` with an if-some-else-none body is filter-then-map. -/
theorem filterMap_ite_eq_filter_map (p : α → Bool) (f : α → β) (l : List α) :
    (l.filterMap fun x => if p x then some (f x) else none) =
      (l.filter p).map f := by
  induction l with
  | nil => rfl
  | cons x t ih => by_cases h : p x <;> simp [h, ih]

/-- `buildDiffBucket` under duplicate-free ids: `added` lists labels of
next-records without a previous id, `edited` those whose previous record
fails the content comparison, `removed` labels of previous records whose
id disappeared. -/
theorem buildDiffBucket_eq (getId : α → JStr) (getLabel : α → JStr)
    (isSame : α → α → Bool) (prev next : List α)
    (hp : (prev.map getId).Nodup) (hn : (next.map getId).Nodup) :
    buildDiffBucket prev next getId getLabel isSame =
      { added := ((next.filter fun n =>
          (prev.find? fun p => getId p = getId n).isNone).map getLabel),
        edited := ((next.filter fun n =>
          editedFlag isSame (prev.find? fun p => getId p = getId n) n).map
          getLabel),
        removed := ((prev.filter fun p =>
          (next.find? fun q => getId q = getId p).isNone).map getLabel) } := by
  unfold buildDiffBucket
  dsimp only
  rw [jsMapOfList_eq_map getId prev hp, jsMapOfList_eq_map getId next hn]
  congr 1
  · rw [List.filterMap_map]
    rw [← filterMap_ite_eq_filter_map
      (fun n => (prev.find? fun p => getId p = getId n).isNone) getLabel next]
    refine List.filterMap_congr fun n _ => ?_
    simp [Function.comp, jsMapGet_map_pair]
  · rw [List.filterMap_map]
    rw [← filterMap_ite_eq_filter_map _ getLabel next]
    refine List.filterMap_congr fun n _ => ?_
    simp only [Function.comp, jsMapGet_map_pair]
    cases prev.find? fun p => getId p = getId n with
    | none => rfl
    | some p => by_cases h : isSame p n <;> simp [editedFlag, h]
  · rw [List.filterMap_map]
    rw [← filterMap_ite_eq_filter_map
      (fun p => (next.find? fun q => getId q = getId p).isNone) getLabel prev]
    refine List.filterMap_congr fun p _ => ?_
    simp [Function.comp, jsMapGet_map_pair]

/-- C3 (amended).  For workbooks with duplicate-free ids, a record id
present in both versions of a collection is reported under that
collection's `edited` bucket iff the compared fields differ, where the
comparison excludes `id` and `source` but INCLUDES the citation
(`reqSame`, `priceSame`, `schedSame`, `riskSame`, `assumpSame`); `added`
and `removed` hold exactly the ids on one side only, so a text-only change
is edited and neither added nor removed, and a citation-only change is
also reported as edited. -/
theorem diff_c3_amended (prev next : StructuredWorkbook)
    (hp : NodupIds prev) (hn : NodupIds next) :
    diffStructuredWorkbooks (some prev) next =
      some
        { requirements :=
            { added := ((next.requirements.filter fun n =>
                (prev.requirements.find? fun p => p.id = n.id).isNone).map
                reqLabel),
              edited := ((next.requirements.filter fun n =>
                editedFlag reqSame (prev.requirements.find? fun p => p.id = n.id)
                  n).map reqLabel),
              removed := ((prev.requirements.filter fun p =>
                (next.requirements.find? fun q => q.id = p.id).isNone).map
                reqLabel) },
          pricing :=
            { added := ((next.pricing.filter fun n =>
                (prev.pricing.find? fun p => p.id = n.id).isNone).map
                priceLabel),
              edited := ((next.pricing.filter fun n =>
                editedFlag priceSame (prev.pricing.find? fun p => p.id = n.id)
                  n).map priceLabel),
              removed := ((prev.pricing.filter fun p =>
                (next.pricing.find? fun q => q.id = p.id).isNone).map
                priceLabel) },
          schedule :=
            { added := ((next.schedule.filter fun n =>
                (prev.schedule.find? fun p => p.id = n.id).isNone).map
                schedLabel),
              edited := ((next.schedule.filter fun n =>
                editedFlag schedSame (prev.schedule.find? fun p => p.id = n.id)
                  n).map schedLabel),
              removed := ((prev.schedule.filter fun p =>
                (next.schedule.find? fun q => q.id = p.id).isNone).map
                schedLabel) },
          risks :=
            { added := ((next.risks.filter fun n =>
                (prev.risks.find? fun p => p.id = n.id).isNone).map
                riskLabel),
              edited := ((next.risks.filter fun n =>
                editedFlag riskSame (prev.risks.find? fun p => p.id = n.id)
                  n).map riskLabel),
              removed := ((prev.risks.filter fun p =>
                (next.risks.find? fun q => q.id = p.id).isNone).map
                riskLabel) },
          assumptions :=
            { added := ((next.assumptions.filter fun n =>
                (prev.assumptions.find? fun p => p.id = n.id).isNone).map
                assumpLabel),
              edited := ((next.assumptions.filter fun n =>
                editedFlag assumpSame (prev.assumptions.find? fun p => p.id = n.id)
                  n).map assumpLabel),
              removed := ((prev.assumptions.filter fun p =>
                (next.assumptions.find? fun q => q.id = p.id).isNone).map
                assumpLabel) } } := by
  obtain ⟨hp1, hp2, hp3, hp4, hp5⟩ := hp
  obtain ⟨hn1, hn2, hn3, hn4, hn5⟩ := hn
  simp only [diffStructuredWorkbooks]
  rw [buildDiffBucket_eq _ reqLabel reqSame _ _ hp1 hn1,
    buildDiffBucket_eq _ priceLabel priceSame _ _ hp2 hn2,
    buildDiffBucket_eq _ schedLabel schedSame _ _ hp3 hn3,
    buildDiffBucket_eq _ riskLabel riskSame _ _ hp4 hn4,
    buildDiffBucket_eq _ assumpLabel assumpSame _ _ hp5 hn5]

/-- C3 witness: the amended characterization applied to the concrete
one-requirement workbooks. -/
theorem diff_c3_amended_witness :
    NodupIds (c3Workbook "chunk-1") ∧ NodupIds (c3Workbook "chunk-2") ∧
    diffStructuredWorkbooks (some (c3Workbook "chunk-1"))
        (c3Workbook "chunk-2") =
      some
        { requirements :=
            { added := ((((c3Workbook "chunk-2").requirements.filter fun n =>
                ((c3Workbook "chunk-1").requirements.find? fun p =>
                  p.id = n.id).isNone).map reqLabel)),
              edited := ((((c3Workbook "chunk-2").requirements.filter fun n =>
                editedFlag reqSame
                  ((c3Workbook "chunk-1").requirements.find? fun p =>
                    p.id = n.id) n).map reqLabel)),
              removed := ((((c3Workbook "chunk-1").requirements.filter fun p =>
                ((c3Workbook "chunk-2").requirements.find? fun q =>
                  q.id = p.id).isNone).map reqLabel)) },
          pricing := { added := [], edited := [], removed := [] },
          schedule := { added := [], edited := [], removed := [] },
          risks := { added := [], edited := [], removed := [] },
          assumptions := { added := [], edited := [], removed := [] } } :=
  ⟨⟨by decide, by decide, by decide, by decide, by decide⟩,
   ⟨by decide, by decide, by decide, by decide, by decide⟩, by
    have h := diff_c3_amended (c3Workbook "chunk-1") (c3Workbook "chunk-2")
      ⟨by decide, by decide, by decide, by decide, by decide⟩
      ⟨by decide, by decide, by decide, by decide, by decide⟩
    simpa using h⟩

/-- C10.  The estimator's quantity is always at least 1: the output's
`display.quantity` is exactly `parseQuantity` of the raw text, the total
square footage uses the same multiplier, and a match whose captured number
is 0 falls back to the default 1. -/
theorem estimator_c10_quantity_ge_one :
    (∀ text : JStr, 1 ≤ parseQuantity text) ∧
    (∀ (input : AncEstimateInput) (now : JStr),
      (runAncEstimator input now).display.quantity =
        parseQuantity input.rawText ∧
      (runAncEstimator input now).display.totalSqFt =
        money (parseSqFtFromText input.rawText *
          (parseQuantity input.rawText : ℚ))) ∧
    parseQuantity "0 displays".data = 1 := by
  refine ⟨?_, fun input now => ⟨rfl, rfl⟩, by decide⟩
  intro text
  unfold parseQuantity
  split
  · split
    · dsimp only
      split <;> omega
    · simp
  · simp

/-- C8 (amended).  On sentinel-free input, `splitIntoChunks` splits the
trimmed text on runs of two or more newlines and keeps exactly the trimmed
fragments strictly longer than 80 characters: every retained fragment has
length greater than 80, and every fragment longer than 80 is retained (a
fragment of length exactly 80 is dropped). -/
theorem chunker_c8_amended (s : JStr) (h : jsIncludes (jsTrim s) SENT = false) :
    (∀ c ∈ splitIntoChunks s, 80 < c.length) ∧
    (∀ f ∈ (splitNlRuns 2 (jsTrim s)).map jsTrim, 80 < f.length →
      f ∈ splitIntoChunks s) := by
  by_cases h0 : jsTrim s = []
  · constructor
    · intro c hc
      simp [splitIntoChunks, h0] at hc
    · intro f hf
      rw [h0] at hf
      have : f = [] := by
        simpa [splitNlRuns, splitNlGo, jsTrim] using hf
      intro h80
      simp [this] at h80
  · have hrw : splitIntoChunks s =
        ((splitNlRuns 2 (jsTrim s)).map jsTrim).filter fun p =>
          80 < p.length := by
      simp [splitIntoChunks, h0, h]
    rw [hrw]
    constructor
    · intro c hc
      simpa using (List.mem_filter.mp hc).2
    · intro f hf h80
      exact List.mem_filter.mpr ⟨hf, by simpa using h80⟩

/-- C8 witness: a single 81-character fragment is sentinel-free and is
retained with length greater than 80. -/
theorem chunker_c8_amended_witness :
    jsIncludes (jsTrim (List.replicate 81 'a')) SENT = false ∧
    ((∀ c ∈ splitIntoChunks (List.replicate 81 'a'), 80 < c.length) ∧
     (∀ f ∈ (splitNlRuns 2 (jsTrim (List.replicate 81 'a'))).map jsTrim,
        80 < f.length → f ∈ splitIntoChunks (List.replicate 81 'a'))) :=
  ⟨by decide, chunker_c8_amended (List.replicate 81 'a') (by decide)⟩

/-! ## Null-iff-empty contract of the import parser (C5) -/

/-- A property of every element of an enumerated list reduces to the same
property of the underlying list. -/
theorem forall_mem_enumFrom_iff {α : Type} (P : α → Prop) (l : List α) :
    ∀ n : Nat, (∀ x ∈ l.enumFrom n, P x.2) ↔ (∀ r ∈ l, P r) := by
  induction l with
  | nil => simp
  | cons a t ih =>
    intro n
    simp only [List.enumFrom, List.mem_cons]
    constructor
    · intro h
      intro r hr
      rcases hr with rfl | hr
      · exact h (n, r) (Or.inl rfl)
      · exact (ih (n + 1)).mp (fun x hx => h x (Or.inr hx)) r hr
    · intro h x hx
      rcases hx with rfl | hx
      · exact h a (Or.inl rfl)
      · exact (ih (n + 1)).mpr (fun r hr => h r (Or.inr hr)) x hx

/-- The parsed requirements are empty iff no row has requirement text. -/
theorem parsedRequirements_eq_nil_iff (rows : List SheetRow) :
    parsedRequirements rows = [] ↔
      ∀ row ∈ rows, asString0 (row "Requirement".data) = [] := by
  unfold parsedRequirements
  rw [List.filter_eq_nil_iff]
  simp only [List.mem_map, List.enum]
  constructor
  · intro h row hr
    have := (forall_mem_enumFrom_iff
      (fun r => asString0 (r "Requirement".data) = []) rows 0).mp ?_ row hr
    · exact this
    · intro x hx
      have := h _ ⟨x, hx, rfl⟩
      simpa using this
  · intro h y hy
    obtain ⟨x, hx, rfl⟩ := hy
    have := (forall_mem_enumFrom_iff
      (fun r => asString0 (r "Requirement".data) = []) rows 0).mpr h x hx
    simpa using this

/-- The parsed pricing records are empty iff no row has item text. -/
theorem parsedPricing_eq_nil_iff (rows : List SheetRow) :
    parsedPricing rows = [] ↔
      ∀ row ∈ rows, asString0 (row "Item".data) = [] := by
  unfold parsedPricing
  rw [List.filter_eq_nil_iff]
  simp only [List.mem_map, List.enum]
  constructor
  · intro h row hr
    have := (forall_mem_enumFrom_iff
      (fun r => asString0 (r "Item".data) = []) rows 0).mp ?_ row hr
    · exact this
    · intro x hx
      have := h _ ⟨x, hx, rfl⟩
      simpa using this
  · intro h y hy
    obtain ⟨x, hx, rfl⟩ := hy
    have := (forall_mem_enumFrom_iff
      (fun r => asString0 (r "Item".data) = []) rows 0).mpr h x hx
    simpa using this

/-- The parsed schedule records are empty iff no row has milestone text. -/
theorem parsedSchedule_eq_nil_iff (rows : List SheetRow) :
    parsedSchedule rows = [] ↔
      ∀ row ∈ rows, asString0 (row "Milestone".data) = [] := by
  unfold parsedSchedule
  rw [List.filter_eq_nil_iff]
  simp only [List.mem_map, List.enum]
  constructor
  · intro h row hr
    have := (forall_mem_enumFrom_iff
      (fun r => asString0 (r "Milestone".data) = []) rows 0).mp ?_ row hr
    · exact this
    · intro x hx
      have := h _ ⟨x, hx, rfl⟩
      simpa using this
  · intro h y hy
    obtain ⟨x, hx, rfl⟩ := hy
    have := (forall_mem_enumFrom_iff
      (fun r => asString0 (r "Milestone".data) = []) rows 0).mpr h x hx
    simpa using this

/-- The parsed risk records are empty iff no row has risk text. -/
theorem parsedRisks_eq_nil_iff (rows : List SheetRow) :
    parsedRisks rows = [] ↔
      ∀ row ∈ rows, asString0 (row "Risk".data) = [] := by
  unfold parsedRisks
  rw [List.filter_eq_nil_iff]
  simp only [List.mem_map, List.enum]
  constructor
  · intro h row hr
    have := (forall_mem_enumFrom_iff
      (fun r => asString0 (r "Risk".data) = []) rows 0).mp ?_ row hr
    · exact this
    · intro x hx
      have := h _ ⟨x, hx, rfl⟩
      simpa using this
  · intro h y hy
    obtain ⟨x, hx, rfl⟩ := hy
    have := (forall_mem_enumFrom_iff
      (fun r => asString0 (r "Risk".data) = []) rows 0).mpr h x hx
    simpa using this

/-- The parsed assumptions are empty iff no row has assumption text. -/
theorem parsedAssumptions_eq_nil_iff (rows : List SheetRow) :
    parsedAssumptions rows = [] ↔
      ∀ row ∈ rows, asString0 (row "Assumption".data) = [] := by
  unfold parsedAssumptions
  rw [List.filter_eq_nil_iff]
  simp only [List.mem_map, List.enum]
  constructor
  · intro h row hr
    have := (forall_mem_enumFrom_iff
      (fun r => asString0 (r "Assumption".data) = []) rows 0).mp ?_ row hr
    · exact this
    · intro x hx
      have := h _ ⟨x, hx, rfl⟩
      simpa using this
  · intro h y hy
    obtain ⟨x, hx, rfl⟩ := hy
    have := (forall_mem_enumFrom_iff
      (fun r => asString0 (r "Assumption".data) = []) rows 0).mpr h x hx
    simpa using this

/-- C5.  The import parser returns `null` exactly when all five structured
collections parse to empty from the sheet rows (no row carries a primary
text field); whenever any collection is non-empty it returns a workbook. -/
theorem parse_c5_null_iff_all_empty (sheets : SheetsInput) (now : JStr) :
    (parseStructuredWorkbookFromSheets sheets now = none ↔
      ((∀ row ∈ sheets.Requirements, asString0 (row "Requirement".data) = []) ∧
       (∀ row ∈ sheets.Pricing, asString0 (row "Item".data) = []) ∧
       (∀ row ∈ sheets.Schedule, asString0 (row "Milestone".data) = []) ∧
       (∀ row ∈ sheets.Risks, asString0 (row "Risk".data) = []) ∧
       (∀ row ∈ sheets.Assumptions, asString0 (row "Assumption".data) = []))) ∧
    ((parseStructuredWorkbookFromSheets sheets now).isSome ↔
      ¬((∀ row ∈ sheets.Requirements, asString0 (row "Requirement".data) = []) ∧
        (∀ row ∈ sheets.Pricing, asString0 (row "Item".data) = []) ∧
        (∀ row ∈ sheets.Schedule, asString0 (row "Milestone".data) = []) ∧
        (∀ row ∈ sheets.Risks, asString0 (row "Risk".data) = []) ∧
        (∀ row ∈ sheets.Assumptions, asString0 (row "Assumption".data) = []))) := by
  have hmain : parseStructuredWorkbookFromSheets sheets now = none ↔
      (parsedRequirements sheets.Requirements = [] ∧
       parsedPricing sheets.Pricing = [] ∧
       parsedSchedule sheets.Schedule = [] ∧
       parsedRisks sheets.Risks = [] ∧
       parsedAssumptions sheets.Assumptions = []) := by
    unfold parseStructuredWorkbookFromSheets
    dsimp only
    split
    · next hcond =>
      simp only [true_iff]
      have := by simpa [Bool.and_eq_true, decide_eq_true_eq] using hcond
      tauto
    · next hcond =>
      constructor
      · intro h
        exact absurd h (by simp)
      · intro ⟨h1, h2, h3, h4, h5⟩
        exact absurd (by simp [h1, h2, h3, h4, h5]) hcond
  have hiff : (parsedRequirements sheets.Requirements = [] ∧
       parsedPricing sheets.Pricing = [] ∧
       parsedSchedule sheets.Schedule = [] ∧
       parsedRisks sheets.Risks = [] ∧
       parsedAssumptions sheets.Assumptions = []) ↔
      ((∀ row ∈ sheets.Requirements, asString0 (row "Requirement".data) = []) ∧
       (∀ row ∈ sheets.Pricing, asString0 (row "Item".data) = []) ∧
       (∀ row ∈ sheets.Schedule, asString0 (row "Milestone".data) = []) ∧
       (∀ row ∈ sheets.Risks, asString0 (row "Risk".data) = []) ∧
       (∀ row ∈ sheets.Assumptions, asString0 (row "Assumption".data) = [])) := by
    rw [parsedRequirements_eq_nil_iff, parsedPricing_eq_nil_iff,
      parsedSchedule_eq_nil_iff, parsedRisks_eq_nil_iff,
      parsedAssumptions_eq_nil_iff]
  refine ⟨hmain.trans hiff, ?_⟩
  rw [← hmain.trans hiff, Option.isSome_iff_ne_none]

/-! ## Citation provenance of the workbook builder (C6) -/

/-- Deduplication only drops elements: the result is a sub-collection. -/
theorem mem_of_mem_dedupeByKey {key : α → JStr} {l : List α} {x : α}
    (h : x ∈ dedupeByKey key l) : x ∈ l := by
  suffices H : ∀ seen l', x ∈ dedupeByKey.go key seen l' → x ∈ l' from
    H [] l h
  intro seen l'
  induction l' generalizing seen with
  | nil => simp [dedupeByKey.go]
  | cons a t ih =>
    intro hx
    simp only [dedupeByKey.go] at hx
    split at hx
    · exact List.mem_cons_of_mem a (ih _ hx)
    · rcases List.mem_cons.mp hx with rfl | hx
      · exact List.mem_cons_self _ _
      · exact List.mem_cons_of_mem a (ih _ hx)

/-- Membership in an enumerated list projects to the underlying list. -/
theorem snd_mem_of_mem_enumFrom {l : List α} {p : Nat × α} :
    ∀ {n : Nat}, p ∈ l.enumFrom n → p.2 ∈ l := by
  induction l with
  | nil => simp
  | cons a t ih =>
    intro n hp
    rcases List.mem_cons.mp hp with rfl | hp
    · simp
    · exact List.mem_cons_of_mem a (ih hp)

/-- Every record built by `attachIds` is some candidate applied to an id. -/
theorem mem_attachIds {pre : String} {l : List (JStr → β)} {r : β}
    (h : r ∈ attachIds pre l) : ∃ f ∈ l, ∃ i, r = f i := by
  unfold attachIds at h
  obtain ⟨p, hp, rfl⟩ := List.mem_map.mp h
  exact ⟨p.2, snd_mem_of_mem_enumFrom hp, _, rfl⟩

/-- Any surviving record of a collection built from per-chunk candidates
carries the id of one of the selected chunks as its citation. -/
theorem citation_resolves_generic {β : Type}
    (cands : WorkbookChunkInput → List (JStr → β)) (citOf key : β → JStr)
    (pre : String)
    (hc : ∀ ch f, f ∈ cands ch → ∀ i, citOf (f i) = ch.id)
    (chunks : List WorkbookChunkInput) (r : β)
    (hr : r ∈ (dedupeByKey key
      (attachIds pre ((selectedChunks chunks).flatMap cands))).take 200) :
    ∃ ch ∈ selectedChunks chunks, citOf r = ch.id := by
  have h1 : r ∈ dedupeByKey key
      (attachIds pre ((selectedChunks chunks).flatMap cands)) :=
    List.mem_of_mem_take hr
  have h2 := mem_of_mem_dedupeByKey h1
  obtain ⟨f, hf, i, rfl⟩ := mem_attachIds h2
  obtain ⟨ch, hch, hfch⟩ := List.mem_flatMap.mp hf
  exact ⟨ch, hch, hc ch f hfch i⟩

/-- Requirement candidates cite their chunk. -/
theorem reqCands_citation (ch : WorkbookChunkInput)
    (f : JStr → WorkbookRequirement) (hf : f ∈ reqCandsOfChunk ch) (i : JStr) :
    (f i).citation = ch.id := by
  obtain ⟨line, _, hline⟩ := List.mem_filterMap.mp hf
  split at hline
  · cases Option.some.inj hline
    rfl
  · cases hline

/-- Pricing candidates cite their chunk. -/
theorem priceCands_citation (ch : WorkbookChunkInput)
    (f : JStr → WorkbookPricing) (hf : f ∈ priceCandsOfChunk ch) (i : JStr) :
    (f i).citation = ch.id := by
  obtain ⟨line, _, hline⟩ := List.mem_flatMap.mp hf
  obtain ⟨a, _, rfl⟩ := List.mem_map.mp hline
  rfl

/-- Schedule candidates cite their chunk. -/
theorem schedCands_citation (ch : WorkbookChunkInput)
    (f : JStr → WorkbookSchedule) (hf : f ∈ schedCandsOfChunk ch) (i : JStr) :
    (f i).citation = ch.id := by
  obtain ⟨line, _, hline⟩ := List.mem_filterMap.mp hf
  split at hline
  · cases Option.some.inj hline
    rfl
  · cases hline

/-- Risk candidates cite their chunk. -/
theorem riskCands_citation (ch : WorkbookChunkInput)
    (f : JStr → WorkbookRisk) (hf : f ∈ riskCandsOfChunk ch) (i : JStr) :
    (f i).citation = ch.id := by
  obtain ⟨line, _, hline⟩ := List.mem_filterMap.mp hf
  split at hline
  · cases Option.some.inj hline
    rfl
  · cases hline

/-- Assumption candidates cite their chunk. -/
theorem assumpCands_citation (ch : WorkbookChunkInput)
    (f : JStr → WorkbookAssumption) (hf : f ∈ assumpCandsOfChunk ch) (i : JStr) :
    (f i).citation = ch.id := by
  obtain ⟨line, _, hline⟩ := List.mem_filterMap.mp hf
  split at hline
  · cases Option.some.inj hline
    rfl
  · cases hline

/-- C6.  In every workbook built by `buildStructuredWorkbook`, each record
of each of the five collections has a citation equal to the id of an entry
of the returned `sources[]` list. -/
theorem workbook_c6_citations_resolve (chunks : List WorkbookChunkInput)
    (meta : WorkbookMetaInput) (now : JStr) :
    (∀ r ∈ (buildStructuredWorkbook chunks meta now).requirements,
      ∃ s ∈ (buildStructuredWorkbook chunks meta now).sources,
        r.citation = s.id) ∧
    (∀ r ∈ (buildStructuredWorkbook chunks meta now).pricing,
      ∃ s ∈ (buildStructuredWorkbook chunks meta now).sources,
        r.citation = s.id) ∧
    (∀ r ∈ (buildStructuredWorkbook chunks meta now).schedule,
      ∃ s ∈ (buildStructuredWorkbook chunks meta now).sources,
        r.citation = s.id) ∧
    (∀ r ∈ (buildStructuredWorkbook chunks meta now).risks,
      ∃ s ∈ (buildStructuredWorkbook chunks meta now).sources,
        r.citation = s.id) ∧
    (∀ r ∈ (buildStructuredWorkbook chunks meta now).assumptions,
      ∃ s ∈ (buildStructuredWorkbook chunks meta now).sources,
        r.citation = s.id) := by
  have hsrc : ∀ ch ∈ selectedChunks chunks,
      ({ id := ch.id, title := ch.title, score := ch.score,
         label := labelStr ch.label } : WorkbookSource) ∈
        (buildStructuredWorkbook chunks meta now).sources := by
    intro ch hch
    exact List.mem_map.mpr ⟨ch, hch, rfl⟩
  refine ⟨?_, ?_, ?_, ?_, ?_⟩
  · intro r hr
    obtain ⟨ch, hch, hcit⟩ := citation_resolves_generic reqCandsOfChunk
      (fun r => r.citation) (fun r => r.text) "REQ" reqCands_citation
      chunks r hr
    exact ⟨_, hsrc ch hch, hcit⟩
  · intro r hr
    obtain ⟨ch, hch, hcit⟩ := citation_resolves_generic priceCandsOfChunk
      (fun r => r.citation) (fun r => r.item) "PRC" priceCands_citation
      chunks r hr
    exact ⟨_, hsrc ch hch, hcit⟩
  · intro r hr
    obtain ⟨ch, hch, hcit⟩ := citation_resolves_generic schedCandsOfChunk
      (fun r => r.citation) (fun r => r.milestone) "SCH" schedCands_citation
      chunks r hr
    exact ⟨_, hsrc ch hch, hcit⟩
  · intro r hr
    obtain ⟨ch, hch, hcit⟩ := citation_resolves_generic riskCandsOfChunk
      (fun r => r.citation) (fun r => r.risk) "RSK" riskCands_citation
      chunks r hr
    exact ⟨_, hsrc ch hch, hcit⟩
  · intro r hr
    obtain ⟨ch, hch, hcit⟩ := citation_resolves_generic assumpCandsOfChunk
      (fun r => r.citation) (fun r => r.text) "ASM" assumpCands_citation
      chunks r hr
    exact ⟨_, hsrc ch hch, hcit⟩

/-! ## The must-keep hard override (C1) -/

/-- An element of a list stays in its first-occurrence deduplication
(unless it was already seen, for the auxiliary scanner). -/
theorem mem_dedupFirst_go_of_mem {a : JStr} :
    ∀ (l seen : List JStr), a ∈ l → a ∈ dedupFirst.go seen l ∨ a ∈ seen := by
  intro l
  induction l with
  | nil => simp
  | cons x t ih =>
    intro seen ha
    simp only [dedupFirst.go]
    rcases List.mem_cons.mp ha with rfl | ha
    · split
      · next hc => exact Or.inr (by simpa using hc)
      · exact Or.inl (List.mem_cons_self _ _)
    · split
      · exact ih seen ha
      · rcases ih (x :: seen) ha with h | h
        · exact Or.inl (List.mem_cons_of_mem _ h)
        · rcases List.mem_cons.mp h with rfl | h
          · exact Or.inl (List.mem_cons_self _ _)
          · exact Or.inr h

/-- An element of a list stays in its first-occurrence deduplication. -/
theorem mem_dedupFirst_of_mem {a : JStr} {l : List JStr} (h : a ∈ l) :
    a ∈ dedupFirst l := by
  rcases mem_dedupFirst_go_of_mem l [] h with h' | h'
  · exact h'
  · cases h'

/-- First-occurrence deduplication only drops elements. -/
theorem mem_of_mem_dedupFirst {a : JStr} {l : List JStr}
    (h : a ∈ dedupFirst l) : a ∈ l := by
  suffices H : ∀ l' seen, a ∈ dedupFirst.go seen l' → a ∈ l' from H l [] h
  intro l'
  induction l' with
  | nil => simp [dedupFirst.go]
  | cons x t ih =>
    intro seen hx
    simp only [dedupFirst.go] at hx
    split at hx
    · exact List.mem_cons_of_mem x (ih _ hx)
    · rcases List.mem_cons.mp hx with rfl | hx
      · exact List.mem_cons_self _ _
      · exact List.mem_cons_of_mem x (ih _ hx)

set_option maxHeartbeats 2000000 in
/-- C1.  Any text in which some must-keep phrase occurs (after the
classifier's normalization) is labelled `relevant`, regardless of the
numeric score: the must-keep override fires before any threshold test. -/
theorem classifier_c1_mustkeep_relevant (text : JStr)
    (h : ∃ p ∈ MUST_KEEP_PHRASES,
      0 < countOccurrences (normalizeText text) (normalizeKeyword p)) :
    (scoreRfpChunk text).label = RelevanceLabel.relevant := by
  obtain ⟨p, hp, hc⟩ := h
  have hmem : p ∈ mustKeepMatched (normalizeText text) := by
    unfold mustKeepMatched
    rw [List.mem_filter]
    exact ⟨hp, by simpa using hc⟩
  have hmem2 : p ∈ matchedKeywordsAll text := by
    unfold matchedKeywordsAll
    exact mem_dedupFirst_of_mem (by simp [hmem])
  have hk : hasMustKeep text = true := by
    unfold hasMustKeep
    rw [List.any_eq_true]
    exact ⟨p, hmem2, by simpa using hp⟩
  show chunkLabel text = RelevanceLabel.relevant
  unfold chunkLabel
  simp [hk]

/-- C1 witness: "Division 26 applies" contains the must-keep phrase
"division 26" and is labelled relevant. -/
theorem classifier_c1_witness :
    (∃ p ∈ MUST_KEEP_PHRASES,
      0 < countOccurrences (normalizeText "Division 26 applies".data)
        (normalizeKeyword p)) ∧
    (scoreRfpChunk "Division 26 applies".data).label =
      RelevanceLabel.relevant :=
  ⟨⟨"division 26".data, by decide, by decide⟩,
   classifier_c1_mustkeep_relevant "Division 26 applies".data
     ⟨"division 26".data, by decide, by decide⟩⟩

/-! ## Noise-only text scores negative and is irrelevant (C9) -/

/-- Two-decimal rounding of a value at most −1 stays negative. -/
theorem toFixed2R_neg {x : ℝ} (hx : x ≤ -1) : toFixed2R x < 0 := by
  unfold toFixed2R
  rw [if_pos (by linarith : x < 0)]
  have h1 : (100 : ℤ) ≤ ⌊-x * 100 + 1 / 2⌋ := by
    apply Int.le_floor.mpr
    push_cast
    linarith
  have h2 : (100 : ℝ) ≤ ((⌊-x * 100 + 1 / 2⌋ : ℤ) : ℝ) := by exact_mod_cast h1
  have h3 : (0 : ℝ) < ((⌊-x * 100 + 1 / 2⌋ : ℤ) : ℝ) / 100 := by linarith
  linarith

set_option maxHeartbeats 2000000 in
/-- C9.  Text whose only hits are noise keywords (no must-keep or signal
occurrences, no category keyword or pattern hits, no risk hits, no
boosters, not a drawing candidate) receives a strictly negative score and
the label `irrelevant`. -/
theorem classifier_c9_noise_only_irrelevant (text : JStr)
    (hnoise : 0 < noiseTotal (normalizeText text))
    (hmk : mustKeepTotal (normalizeText text) = 0)
    (hsig : signalTotal (normalizeText text) = 0)
    (hcat : ∀ c ∈ KEYWORD_CATEGORIES,
      categoryKeywordCount (normalizeText text) c.2 = 0)
    (hpat : ∀ b ∈ CATEGORY_PATTERNS, detectPatternHits text b.2 = 0)
    (hrisk : ∀ b ∈ RISK_PATTERNS, detectPatternHits text b.2 = 0)
    (hboost : boosterHitsL text = [])
    (hdraw : isDrawingCandidate text = false) :
    (scoreRfpChunk text).score < 0 ∧
    (scoreRfpChunk text).label = RelevanceLabel.irrelevant := by
  have hd : densityHitsQ (normalizeText text) =
      6 * (mustKeepTotal (normalizeText text) : ℚ) +
      2 * (signalTotal (normalizeText text) : ℚ) -
      (9 / 5) * (noiseTotal (normalizeText text) : ℚ) := rfl
  rw [hmk, hsig] at hd
  have hone : (1 : ℚ) ≤ (noiseTotal (normalizeText text) : ℚ) :=
    Nat.one_le_cast.mpr hnoise
  have hdle : densityHitsQ (normalizeText text) ≤ -(9 / 5 : ℚ) := by
    rw [hd]
    push_cast
    linarith
  have hcs : categoryScoreQ text = 0 := by
    unfold categoryScoreQ
    have ha : ∀ x ∈ KEYWORD_CATEGORIES.map (catKeywordBonus (normalizeText text)),
        x = 0 := by
      intro x hx
      obtain ⟨c, hc2, rfl⟩ := List.mem_map.mp hx
      simp [catKeywordBonus, hcat c hc2]
    have hb : ∀ x ∈ CATEGORY_PATTERNS.map (catPatternBonus text), x = 0 := by
      intro x hx
      obtain ⟨b, hb2, rfl⟩ := List.mem_map.mp hx
      simp [catPatternBonus, hpat b hb2]
    rw [List.sum_eq_zero ha, List.sum_eq_zero hb, add_zero]
  have hrs : riskScoreQ text = 0 := by
    unfold riskScoreQ
    have ha : ∀ x ∈ RISK_PATTERNS.map (riskBonus text), x = 0 := by
      intro x hx
      obtain ⟨b, hb2, rfl⟩ := List.mem_map.mp hx
      simp [riskBonus, hrisk b hb2]
    rw [List.sum_eq_zero ha]
  have hbs : boosterScoreQ text = 0 := by
    unfold boosterScoreQ
    rw [hboost]
    simp
  have hds : drawingScoreQ text = 0 := by
    unfold drawingScoreQ
    rw [hdraw]
    simp
  have hkds : keywordDensityScore text =
      ((densityHitsQ (normalizeText text) : ℚ) : ℝ) := by
    unfold keywordDensityScore
    dsimp only
    rw [if_neg]
    intro hpos
    linarith
  have hscore : scoreVal text =
      toFixed2R ((densityHitsQ (normalizeText text) : ℚ) : ℝ) := by
    unfold scoreVal
    rw [hkds, hcs, hrs, hbs, hds]
    norm_num
  have hlt : scoreVal text < 0 := by
    rw [hscore]
    apply toFixed2R_neg
    have : ((densityHitsQ (normalizeText text) : ℚ) : ℝ) ≤
        ((-(9 / 5 : ℚ) : ℚ) : ℝ) := by exact_mod_cast hdle
    push_cast at this ⊢
    linarith
  have h1 : mustKeepMatched (normalizeText text) = [] := by
    unfold mustKeepMatched
    rw [List.filter_eq_nil_iff]
    intro p hp
    have h0 := (List.sum_eq_zero_iff.mp hmk) _
      (List.mem_map_of_mem (fun p =>
        countOccurrences (normalizeText text) (normalizeKeyword p)) hp)
    simp [h0]
  have h2 : signalMatched (normalizeText text) = [] := by
    unfold signalMatched
    rw [List.filter_eq_nil_iff]
    intro p hp
    have h0 := (List.sum_eq_zero_iff.mp hsig) _
      (List.mem_map_of_mem (fun p =>
        countOccurrences (normalizeText text) (normalizeKeyword p)) hp)
    simp [h0]
  have h3 : categoryMatchedKeywords (normalizeText text) = [] := by
    unfold categoryMatchedKeywords
    rw [List.flatMap_eq_nil_iff]
    intro c hc2
    rw [List.filter_eq_nil_iff]
    intro k hk
    have hsum : categoryKeywordCount (normalizeText text) c.2 = 0 :=
      hcat c hc2
    unfold categoryKeywordCount at hsum
    have h0 := (List.sum_eq_zero_iff.mp hsum) _
      (List.mem_map_of_mem (fun k =>
        countOccurrences (normalizeText text) (normalizeKeyword k)) hk)
    simp [h0]
  have hall : matchedKeywordsAll text =
      dedupFirst (noiseMatched (normalizeText text)) := by
    unfold matchedKeywordsAll
    dsimp only
    rw [h1, h2, h3]
    simp
  have hdisj : ∀ k ∈ NOISE_KEYWORDS, (MUST_KEEP_PHRASES.contains k) = false := by
    decide
  have hmkf : hasMustKeep text = false := by
    unfold hasMustKeep
    rw [hall, List.any_eq_false]
    intro k hk
    have hk2 : k ∈ noiseMatched (normalizeText text) := mem_of_mem_dedupFirst hk
    have hk3 : k ∈ NOISE_KEYWORDS := List.mem_of_mem_filter hk2
    simpa using hdisj k hk3
  have hlabel : chunkLabel text = RelevanceLabel.irrelevant := by
    unfold chunkLabel
    rw [hmkf]
    rw [if_neg (by simp)]
    rw [if_neg (by intro hge; linarith), if_neg (by intro hge; linarith)]
  exact ⟨hlt, hlabel⟩

/-- C9 witness: the noise keyword "waiver" alone scores negatively and is
labelled irrelevant. -/
theorem classifier_c9_witness :
    (0 < noiseTotal (normalizeText "waiver".data) ∧
     mustKeepTotal (normalizeText "waiver".data) = 0 ∧
     signalTotal (normalizeText "waiver".data) = 0 ∧
     (∀ c ∈ KEYWORD_CATEGORIES,
       categoryKeywordCount (normalizeText "waiver".data) c.2 = 0) ∧
     (∀ b ∈ CATEGORY_PATTERNS, detectPatternHits "waiver".data b.2 = 0) ∧
     (∀ b ∈ RISK_PATTERNS, detectPatternHits "waiver".data b.2 = 0) ∧
     boosterHitsL "waiver".data = [] ∧
     isDrawingCandidate "waiver".data = false) ∧
    ((scoreRfpChunk "waiver".data).score < 0 ∧
     (scoreRfpChunk "waiver".data).label = RelevanceLabel.irrelevant) :=
  ⟨⟨by decide, by decide, by decide, by decide, by decide, by decide,
    by decide, by decide⟩,
   classifier_c9_noise_only_irrelevant "waiver".data (by decide) (by decide)
     (by decide) (by decide) (by decide) (by decide) (by decide) (by decide)⟩

/-- C6 witness: the citation-resolution theorem applied to a concrete
one-chunk workbook whose requirement cites `chunk-7`. -/
theorem workbook_c6_witness :
    ∃ r ∈ (buildStructuredWorkbook [c6Chunk] ⟨none, none, none⟩
      "t".data).requirements,
      ∃ s ∈ (buildStructuredWorkbook [c6Chunk] ⟨none, none, none⟩
        "t".data).sources, r.citation = s.id := by
  have hr : c6Req ∈ (buildStructuredWorkbook [c6Chunk] ⟨none, none, none⟩
      "t".data).requirements := by decide
  exact ⟨_, hr,
    (workbook_c6_citations_resolve [c6Chunk] ⟨none, none, none⟩ "t".data).1
      _ hr⟩

/-! ## Sentinel split / join round trip (C7) -/

/-- `jsIncludes` holds exactly when the needle is a prefix of some tail. -/
theorem jsIncludes_eq_true_iff (s sub : JStr) :
    jsIncludes s sub = true ↔ ∃ p, sub.isPrefixOf (s.drop p) = true := by
  induction s with
  | nil =>
    simp only [jsIncludes, List.drop_nil]
    constructor
    · intro h
      exact ⟨0, by cases sub <;> simp_all [List.isPrefixOf]⟩
    · rintro ⟨p, hp⟩
      cases sub <;> simp_all [List.isPrefixOf]
  | cons c rest ih =>
    simp only [jsIncludes, Bool.or_eq_true]
    constructor
    · intro h
      rcases h with h | h
      · exact ⟨0, by simpa using h⟩
      · obtain ⟨p, hp⟩ := ih.mp h
        exact ⟨p + 1, by simpa using hp⟩
    · rintro ⟨p, hp⟩
      cases p with
      | zero => exact Or.inl (by simpa using hp)
      | succ p => exact Or.inr (ih.mpr ⟨p, by simpa using hp⟩)

/-- A non-occurring needle is a prefix of no tail. -/
theorem not_isPrefixOf_of_jsIncludes_eq_false {s sub : JStr}
    (h : jsIncludes s sub = false) (p : Nat) :
    ¬ sub.isPrefixOf (s.drop p) = true := by
  intro hp
  have htrue := (jsIncludes_eq_true_iff s sub).mpr ⟨p, hp⟩
  simp [h] at htrue

/-- For a trimmed string, neither end is whitespace: `dropWhile` from
either side is the identity. -/
theorem trimmed_dropWhile_eq {c : JStr} (h : jsTrim c = c) :
    c.dropWhile isWsJS = c ∧ c.reverse.dropWhile isWsJS = c.reverse := by
  have hd : c.dropWhile isWsJS = c := by
    have hsuf : c.dropWhile isWsJS <:+ c := List.dropWhile_suffix isWsJS
    refine List.IsSuffix.eq_of_length hsuf ?_
    have h1 : (jsTrim c).length ≤ (c.dropWhile isWsJS).length := by
      unfold jsTrim
      have h2 := List.IsSuffix.length_le
        (List.dropWhile_suffix (l := (c.dropWhile isWsJS).reverse) isWsJS)
      simp only [List.length_reverse] at h2 ⊢
      omega
    have h3 := List.IsSuffix.length_le hsuf
    rw [h] at h1
    omega
  refine ⟨hd, ?_⟩
  have h4 : jsTrim c = (c.reverse.dropWhile isWsJS).reverse := by
    unfold jsTrim
    rw [hd]
  rw [h] at h4
  have := congrArg List.reverse h4
  simpa using this.symm

/-- A trimmed non-empty string does not start with whitespace. -/
theorem head_not_ws_of_trimmed {c : JStr} (h : jsTrim c = c) (x : Char)
    (xs : JStr) (hc : c = x :: xs) : isWsJS x = false := by
  have hd := (trimmed_dropWhile_eq h).1
  subst hc
  by_contra hws
  rw [Bool.not_eq_false] at hws
  rw [List.dropWhile_cons, if_pos hws] at hd
  have := List.IsSuffix.length_le (List.dropWhile_suffix (l := xs) isWsJS)
  have := congrArg List.length hd
  simp at this
  omega

/-- A trimmed non-empty string does not end with whitespace. -/
theorem last_not_ws_of_trimmed {c : JStr} (h : jsTrim c = c) (x : Char)
    (xs : JStr) (hc : c = xs ++ [x]) : isWsJS x = false := by
  have hd := (trimmed_dropWhile_eq h).2
  subst hc
  rw [List.reverse_append] at hd
  simp only [List.reverse_cons, List.reverse_nil, List.nil_append,
    List.singleton_append] at hd
  by_contra hws
  rw [Bool.not_eq_false] at hws
  rw [List.dropWhile_cons, if_pos hws] at hd
  have h5 := List.IsSuffix.length_le
    (List.dropWhile_suffix (l := xs.reverse) isWsJS)
  have h6 := congrArg List.length hd
  simp only [List.length_reverse] at h5 h6
  simp at h6
  omega

/-- A positive skip counter consumes characters without inspecting them. -/
theorem splitSentGo_skip (n : Nat) (acc : JStr) :
    ∀ s : JStr, splitSentGo n acc s = splitSentGo 0 acc (s.drop n) := by
  induction n with
  | zero => simp
  | succ n ih =>
    intro s
    cases s with
    | nil => simp [splitSentGo]
    | cons c rest => simpa [splitSentGo] using ih rest

/-- Splitting a string that starts with the sentinel emits the accumulator
and restarts after the separator. -/
theorem splitSentGo_sent (acc t : JStr) :
    splitSentGo 0 acc (SENT ++ t) = acc.reverse :: splitSentGo 0 [] t := by
  have hpre : SENT.isPrefixOf (SENT ++ t) = true :=
    List.isPrefixOf_iff_prefix.mpr (List.prefix_append SENT t)
  show splitSentGo 0 acc ('\n' :: ("\n---\n\n".data ++ t)) = _
  rw [splitSentGo]
  rw [if_pos (show List.isPrefixOf SENT
    ('\n' :: ("\n---\n\n".data ++ t)) = true from hpre)]
  rw [splitSentGo_skip]
  have hdrop : ("\n---\n\n".data ++ t).drop (SENT.length - 1) = t := by
    have h6 : SENT.length - 1 = ("\n---\n\n".data : JStr).length := by decide
    rw [h6, List.drop_left]
  rw [hdrop]

/-- A region with no sentinel occurrence is copied to the accumulator. -/
theorem splitSentGo_no_occurrence (c : JStr) :
    ∀ (t acc : JStr),
      (∀ p, p < c.length → ¬ SENT.isPrefixOf ((c ++ t).drop p) = true) →
      splitSentGo 0 acc (c ++ t) = splitSentGo 0 (c.reverse ++ acc) t := by
  induction c with
  | nil => intro t acc _; simp
  | cons x c' ih =>
    intro t acc h
    have h0 : ¬ SENT.isPrefixOf (x :: (c' ++ t)) = true := by
      have := h 0 (by simp)
      simpa using this
    show splitSentGo 0 acc (x :: (c' ++ t)) = _
    rw [splitSentGo]
    simp only [if_neg h0]
    rw [ih t (x :: acc) fun p hp => by
      have := h (p + 1) (by simp; omega)
      simpa using this]
    simp

/-- A string with no sentinel occurrence splits into itself appended to
the accumulator. -/
theorem splitSentGo_terminal (t acc : JStr)
    (h : jsIncludes t SENT = false) :
    splitSentGo 0 acc t = [acc.reverse ++ t] := by
  have := splitSentGo_no_occurrence t [] acc fun p _ => by
    have := not_isPrefixOf_of_jsIncludes_eq_false h p
    simpa using this
  simp only [List.append_nil] at this
  rw [this]
  simp [splitSentGo]

/-- No sentinel occurrence starts strictly inside a chunk that is trimmed,
sentinel-free and does not end in `"\n\n---"`, even when the chunk is
followed by a separator: the only overlaps compatible with the sentinel's
period structure would force the chunk to end in `"\n\n---"` or in a
newline. -/
theorem no_occurrence_in_elem (c t' : JStr)
    (htr : jsTrim c = c) (hni : jsIncludes c SENT = false)
    (hsuf : ¬ ("\n\n---".data <:+ c)) :
    ∀ p, p < c.length → ¬ SENT.isPrefixOf ((c ++ (SENT ++ t')).drop p) = true := by
  intro p hp hpre
  rw [ List.isPrefixOf_iff_prefix] at hpre
  rw [List.drop_append_of_le_length (le_of_lt hp)] at hpre
  have hm : 1 ≤ (c.drop p).length := by
    simp only [List.length_drop]
    omega
  by_cases h7 : 7 ≤ (c.drop p).length
  · have hSa : SENT <+: c.drop p :=
      List.prefix_of_prefix_length_le hpre
        (List.prefix_append (c.drop p) (SENT ++ t')) (by
          have : SENT.length = 7 := by decide
          omega)
    have := (jsIncludes_eq_true_iff c SENT).mpr
      ⟨p, List.isPrefixOf_iff_prefix.mpr hSa⟩
    simp [hni] at this
  · push_neg at h7
    have haS : c.drop p <+: SENT :=
      List.prefix_of_prefix_length_le
        (List.prefix_append (c.drop p) (SENT ++ t')) hpre (by
          have : SENT.length = 7 := by decide
          omega)
    have hatake : c.drop p = SENT.take (c.drop p).length :=
      List.prefix_iff_eq_take.mp haS
    have hsplit : SENT = c.drop p ++ SENT.drop (c.drop p).length := by
      conv_lhs => rw [← List.take_append_drop (c.drop p).length SENT]
      rw [← hatake]
    nth_rewrite 1 [hsplit] at hpre
    have hdm : SENT.drop (c.drop p).length <+: SENT ++ t' :=
      (List.prefix_append_right_inj (c.drop p)).mp hpre
    have hdm2 : SENT.drop (c.drop p).length <+: SENT :=
      List.prefix_of_prefix_length_le hdm (List.prefix_append SENT t') (by
        simp only [List.length_drop]
        omega)
    have heq : SENT.drop (c.drop p).length =
        SENT.take (SENT.drop (c.drop p).length).length :=
      List.prefix_iff_eq_take.mp hdm2
    have hlen : (c.drop p).length = c.length - p := by
      simp [List.length_drop]
    have hcases : (c.drop p).length = 1 ∨ (c.drop p).length = 2 ∨
        (c.drop p).length = 3 ∨ (c.drop p).length = 4 ∨
        (c.drop p).length = 5 ∨ (c.drop p).length = 6 := by omega
    have hCsplit : c = c.take p ++ c.drop p := (List.take_append_drop p c).symm
    rcases hcases with hk | hk | hk | hk | hk | hk
    · rw [hk] at heq
      exact absurd heq (by decide)
    · rw [hk] at heq
      exact absurd heq (by decide)
    · rw [hk] at heq
      exact absurd heq (by decide)
    · rw [hk] at heq
      exact absurd heq (by decide)
    · have ha5 : c.drop p = "\n\n---".data := by
        rw [hatake, hk]
        decide
      exact hsuf ⟨c.take p, by rw [← ha5]; exact (List.take_append_drop p c)⟩
    · have ha6 : c.drop p = "\n\n---\n".data := by
        rw [hatake, hk]
        decide
      have hc : c = (c.take p ++ "\n\n---".data) ++ ['\n'] := by
        calc c = c.take p ++ c.drop p := hCsplit
          _ = c.take p ++ ("\n\n---".data ++ ['\n']) := by
              rw [ha6]
              rfl
          _ = (c.take p ++ "\n\n---".data) ++ ['\n'] := by
              rw [List.append_assoc]
      exact absurd (last_not_ws_of_trimmed htr '\n' (c.take p ++ "\n\n---".data) hc)
        (by decide)

/-- Intercalation step for a list with at least two elements. -/
theorem intercalate_sent_cons (c d : JStr) (t : List JStr) :
    List.intercalate SENT (c :: d :: t) =
      c ++ (SENT ++ List.intercalate SENT (d :: t)) := by
  simp [List.intercalate, List.intersperse]

/-- Splitting the sentinel-joined list of well-behaved chunks recovers the
chunks. -/
theorem splitSentGo_intercalate (l : List JStr) (hl : l ≠ [])
    (h : ∀ c ∈ l, c ≠ [] ∧ jsTrim c = c ∧ jsIncludes c SENT = false ∧
      ¬ ("\n\n---".data <:+ c)) :
    splitSentGo 0 [] (List.intercalate SENT l) = l := by
  induction l with
  | nil => simp at hl
  | cons c l' ih =>
    cases l' with
    | nil =>
      have hj : List.intercalate SENT [c] = c := by simp [List.intercalate]
      rw [hj]
      have hc := h c (by simp)
      rw [splitSentGo_terminal c [] hc.2.2.1]
      simp
    | cons d t =>
      rw [intercalate_sent_cons]
      have hc := h c (by simp)
      rw [splitSentGo_no_occurrence c
        (SENT ++ List.intercalate SENT (d :: t)) []
        (no_occurrence_in_elem c (List.intercalate SENT (d :: t))
          hc.2.1 hc.2.2.1 hc.2.2.2)]
      rw [splitSentGo_sent]
      rw [ih (by simp) fun x hx => h x (by simp [hx])]
      simp

/-- The sentinel join of a nonempty list ends with its last element. -/
theorem intercalate_sent_ends (l : List JStr) (hl : l ≠ []) :
    ∃ A c, c ∈ l ∧ List.intercalate SENT l = A ++ c := by
  induction l with
  | nil => simp at hl
  | cons x l' ih =>
    cases l' with
    | nil => exact ⟨[], x, by simp, by simp [List.intercalate]⟩
    | cons d t =>
      obtain ⟨A, c, hc, hA⟩ := ih (by simp)
      refine ⟨x ++ SENT ++ A, c, by simp [hc], ?_⟩
      rw [intercalate_sent_cons, hA]
      simp [List.append_assoc]

/-- A string with non-whitespace first and last characters is its own
trim. -/
theorem jsTrim_eq_self_of_ends (xs : JStr) (x y : Char) (hd tl : JStr)
    (h1 : xs = x :: hd) (h2 : xs = tl ++ [y])
    (hxw : isWsJS x = false) (hlast : isWsJS y = false) :
    jsTrim xs = xs := by
  unfold jsTrim
  have hdw : xs.dropWhile isWsJS = xs := by
    rw [h1, List.dropWhile_cons, if_neg (by simp [hxw])]
  rw [hdw]
  have hrv : xs.reverse = y :: tl.reverse := by
    rw [h2, List.reverse_append]
    simp
  have hrw : xs.reverse.dropWhile isWsJS = xs.reverse := by
    rw [hrv, List.dropWhile_cons, if_neg (by simp [hlast])]
  rw [hrw, List.reverse_reverse]

/-- C7.  Counterexample: joining the singleton chunk list `["a"]` with the
sentinel yields "a", which contains no sentinel, so `splitIntoChunks`
takes the newline branch and drops the 1-character fragment: the round
trip returns `[]`, not `["a"]`. -/
theorem chunker_c7_counterexample :
    splitIntoChunks (List.intercalate SENT [['a']]) ≠ [['a']] := by decide

/-- C7 (amended).  For a chunk list with at least two elements, each
non-empty, trimmed, sentinel-free and not ending in `"\n\n---"` (the one
suffix that would collide with a following separator), splitting the
sentinel-joined text returns the original list. -/
theorem chunker_c7_amended (l : List JStr) (hlen : 2 ≤ l.length)
    (h : ∀ c ∈ l, c ≠ [] ∧ jsTrim c = c ∧ jsIncludes c SENT = false ∧
      ¬ ("\n\n---".data <:+ c)) :
    splitIntoChunks (List.intercalate SENT l) = l := by
  obtain ⟨c1, l', rfl⟩ : ∃ c1 l', l = c1 :: l' := by
    cases l with
    | nil => simp at hlen
    | cons a t => exact ⟨a, t, rfl⟩
  obtain ⟨d, t, rfl⟩ : ∃ d t, l' = d :: t := by
    cases l' with
    | nil => simp at hlen
    | cons a t => exact ⟨a, t, rfl⟩
  have hc1 := h c1 (by simp)
  have hjcons : List.intercalate SENT (c1 :: d :: t) =
      c1 ++ (SENT ++ List.intercalate SENT (d :: t)) := intercalate_sent_cons c1 d t
  obtain ⟨hx, hxs, hc1eq⟩ : ∃ hx hxs, c1 = hx :: hxs := by
    cases hc : c1 with
    | nil => exact absurd hc hc1.1
    | cons a b => exact ⟨a, b, rfl⟩
  obtain ⟨A, clast, hclmem, hA⟩ :=
    intercalate_sent_ends (c1 :: d :: t) (by simp)
  have hcl := h clast hclmem
  obtain ⟨ys, y, hys⟩ : ∃ ys y, clast = ys ++ [y] := by
    rcases (List.eq_nil_or_concat clast) with hnil | ⟨ys, y, hys⟩
    · exact absurd hnil hcl.1
    · exact ⟨ys, y, by simpa [List.concat_eq_append] using hys⟩
  have hhead : List.intercalate SENT (c1 :: d :: t) =
      hx :: (hxs ++ (SENT ++ List.intercalate SENT (d :: t))) := by
    rw [hjcons, hc1eq]
    simp
  have hlast : List.intercalate SENT (c1 :: d :: t) = (A ++ ys) ++ [y] := by
    rw [hA, hys, List.append_assoc]
  have htrim : jsTrim (List.intercalate SENT (c1 :: d :: t)) =
      List.intercalate SENT (c1 :: d :: t) :=
    jsTrim_eq_self_of_ends _ hx y _ _ hhead hlast
      (head_not_ws_of_trimmed hc1.2.1 hx hxs hc1eq)
      (last_not_ws_of_trimmed hcl.2.1 y ys hys)
  have hne : List.intercalate SENT (c1 :: d :: t) ≠ [] := by
    rw [hhead]
    simp
  have hinc : jsIncludes (List.intercalate SENT (c1 :: d :: t)) SENT = true := by
    refine (jsIncludes_eq_true_iff _ SENT).mpr ⟨c1.length, ?_⟩
    rw [hjcons, List.drop_left]
    exact List.isPrefixOf_iff_prefix.mpr
      (List.prefix_append SENT (List.intercalate SENT (d :: t)))
  unfold splitIntoChunks
  dsimp only
  rw [htrim, if_neg hne, if_pos hinc]
  show ((splitSentGo 0 [] (List.intercalate SENT (c1 :: d :: t))).map
    jsTrim).filter (fun p => !p.isEmpty) = c1 :: d :: t
  rw [splitSentGo_intercalate (c1 :: d :: t) (by simp) h]
  have hmap : (c1 :: d :: t).map jsTrim = c1 :: d :: t := by
    conv_rhs => rw [← List.map_id (c1 :: d :: t)]
    exact List.map_congr_left fun a ha => (h a ha).2.1
  rw [hmap]
  refine List.filter_eq_self.mpr fun a ha => ?_
  simpa using (h a ha).1

/-- C7 witness: the amended round trip applied to the two-chunk list
["hello", "world"]. -/
theorem chunker_c7_amended_witness :
    (2 ≤ (["hello".data, "world".data] : List JStr).length ∧
     (∀ c ∈ (["hello".data, "world".data] : List JStr),
       c ≠ [] ∧ jsTrim c = c ∧ jsIncludes c SENT = false ∧
       ¬ ("\n\n---".data <:+ c))) ∧
    splitIntoChunks (List.intercalate SENT ["hello".data, "world".data]) =
      ["hello".data, "world".data] :=
  ⟨⟨by decide, by decide⟩,
   chunker_c7_amended ["hello".data, "world".data] (by decide) (by decide)⟩
